import Mathlib

/-!
# SPARTAN data preparation: floor adjustment and current-year frame

A shallow embedding of `src/bin/update_loss_prem_at_least_one.cpp`,
`src/build_cur_year_df.cpp`, `src/bin/extract_integer_in_brackets.cpp`,
`src/bin/divide_columns.cpp` and `src/bin/parallel_divide.cpp`.

* An `Rcpp::NumericVector` is a list of rationals (exact arithmetic stands in
  for `double`), an `Rcpp::LogicalVector` a list of booleans.
* An `Rcpp::DataFrame` is an ordered list of named columns.  Reading a column
  that is absent, or that is not numeric, throws in Rcpp; here it is `none`.
* An `Rcpp::DataFrame` variable is a handle: `out = df` makes `out` a second
  handle on the frame of `df`, not a copy, so an assignment `out[name] = v` is
  seen through `df` as well.
* C `int` arithmetic is two's complement arithmetic on 32 bits.
* A `std::string` is the list of its `char`s, one `Char` each; `std::stoi` and
  the bounds checks of `substr` and of Armadillo fail with `none`.
* An `arma::mat` is the list of its columns together with its dimensions.
-/

namespace SPARTAN

/-! ## Data model -/

/-- An `Rcpp::NumericVector`. -/
abbrev NumericVector := List ℚ

/-- An `Rcpp::LogicalVector`. -/
abbrev LogicalVector := List Bool

/-- An `Rcpp::CharacterVector`. -/
abbrev CharacterVector := List String

/-- One cell of a data frame. -/
inductive Value where
  | num (q : ℚ)
  | str (s : String)
deriving DecidableEq

/-- A column of a data frame: numeric or character. -/
inductive Column where
  | numeric (v : NumericVector)
  | character (v : CharacterVector)
deriving DecidableEq

/-- Number of entries of a column. -/
def Column.length : Column → Nat
  | .numeric v => v.length
  | .character v => v.length

/-- The cell in row `i` of a column. -/
def Column.cell (c : Column) (i : Nat) : Option Value :=
  match c with
  | .numeric v => (v.get? i).map Value.num
  | .character v => (v.get? i).map Value.str

/-- The rows `idx` of a column, in that order. -/
def Column.take_rows (c : Column) (idx : List Nat) : Column :=
  match c with
  | .numeric v => .numeric (idx.filterMap fun i => v.get? i)
  | .character v => .character (idx.filterMap fun i => v.get? i)

/-- An `Rcpp::DataFrame`: named columns, in order. -/
structure DataFrame where
  cols : List (String × Column)
deriving DecidableEq

/-- Lookup of a column by name, first match. -/
def DataFrame.lookup (names : List (String × Column)) (name : String) : Option Column :=
  match names with
  | [] => none
  | p :: rest => if p.1 = name then some p.2 else DataFrame.lookup rest name

/-- Replacement of the column called `name`, or a new last column when there
is none: what `out[name] = v` does on a named list. -/
def DataFrame.store (names : List (String × Column)) (name : String) (c : Column) :
    List (String × Column) :=
  match names with
  | [] => [(name, c)]
  | p :: rest =>
    if p.1 = name then (name, c) :: rest else p :: DataFrame.store rest name c

/-- The conversion `Rcpp::NumericVector col = df[name]`: fails when there is no
such column or when it is not numeric. -/
def DataFrame.numeric (df : DataFrame) (name : String) : Option NumericVector :=
  match DataFrame.lookup df.cols name with
  | some (.numeric v) => some v
  | _ => none

/-- The assignment `out[name] = v` of a numeric vector to a column. -/
def DataFrame.assign (df : DataFrame) (name : String) (v : NumericVector) : DataFrame :=
  ⟨DataFrame.store df.cols name (.numeric v)⟩

/-- Number of rows: the length of the first column. -/
def DataFrame.nrow (df : DataFrame) : Nat :=
  match df.cols with
  | [] => 0
  | p :: _ => p.2.length

/-- The cell of column `name` in row `i`. -/
def DataFrame.cell (df : DataFrame) (name : String) (i : Nat) : Option Value :=
  match DataFrame.lookup df.cols name with
  | some c => c.cell i
  | none => none

/-- A data frame as R builds it: all columns have the same number of rows. -/
def DataFrame.WellFormed (df : DataFrame) : Prop :=
  ∀ p ∈ df.cols, p.2.length = df.nrow

instance (df : DataFrame) : Decidable df.WellFormed := by
  unfold DataFrame.WellFormed
  infer_instance

/-- The `Rcpp::List params`: only its entry `lob` is read. -/
structure Params where
  lob : String
deriving DecidableEq

/-! ## Vector sugar -/

/-- Elementwise `a != b` of two numeric vectors. -/
def vec_ne (a b : NumericVector) : LogicalVector :=
  List.zipWith (fun x y => decide (x ≠ y)) a b

/-- Elementwise `a == flag` of a logical vector and a boolean. -/
def vec_is (a : LogicalVector) (flag : Bool) : LogicalVector :=
  a.map fun x => x == flag

/-- Elementwise `a & b` of two logical vectors. -/
def vec_and (a b : LogicalVector) : LogicalVector :=
  List.zipWith (fun x y => x && y) a b

/-- The masked update `x[mask] = x[mask] - 1`. -/
def subtract_one_where (x : NumericVector) (mask : LogicalVector) : NumericVector :=
  List.zipWith (fun v m => if m then v - 1 else v) x mask

/-! ## `update_loss_prem_at_least_one.cpp` -/

/-- The helper `update_0_to_1`: the column `col_name` of `df` with every `0`
replaced by `1`; the loop pushes one value per entry of the column. -/
def update_0_to_1 (df : DataFrame) (col_name : String) : Option NumericVector := do
  let out : NumericVector := []
  let col ← df.numeric col_name
  pure (col.foldl (fun out x => if x = 0 then out ++ [1] else out ++ [x]) out)

/-- The state in which the body of `update_loss_prem_at_least_one` ends: the
frame `out` that it returns, the frame that the handle `df` of the caller names
by then, the three `*_changed` flags, and the column `case_resv` as it stands
when line 91 is reached. -/
structure FloorRun where
  out : DataFrame
  df : DataFrame
  paid_loss_changed : LogicalVector
  case_resv_changed : LogicalVector
  paid_dcce_changed : LogicalVector
  case_resv_at_line_91 : NumericVector

set_option linter.unusedVariables false in
/-- The body of `update_loss_prem_at_least_one`, statement by statement.  Line 60,
`out = df`, copies the handle and not the frame: whatever is assigned through
`out` is what `df` reads afterwards, which the lines `let df := out` record.  The
parameters `all_lines_olep`, `year`, `first_ay` and `params` are not read. -/
def update_loss_prem_at_least_one_run (df all_lines_olep : DataFrame) (year first_ay : Int)
    (params : Params) : Option FloorRun := do
  let out := df
  let out := out.assign "paid_loss" (← update_0_to_1 out "paid_loss")
  let df := out
  let paid_loss_changed := vec_ne (← out.numeric "paid_loss") (← df.numeric "paid_loss")
  let out := out.assign "case_resv" (← update_0_to_1 out "case_resv")
  let df := out
  let case_resv_changed := vec_ne (← out.numeric "case_resv") (← df.numeric "case_resv")
  let out := out.assign "paid_dcce" (← update_0_to_1 out "paid_dcce")
  let df := out
  let paid_dcce_changed := vec_ne (← out.numeric "paid_dcce") (← df.numeric "paid_dcce")
  let paid_loss_from_case := vec_and (vec_is paid_loss_changed true) (vec_is case_resv_changed false)
  let out := out.assign "case_resv"
    (subtract_one_where (← out.numeric "case_resv") paid_loss_from_case)
  let df := out
  let paid_dcce_from_case := vec_and (vec_is paid_dcce_changed true) (vec_is case_resv_changed false)
  let case_resv_at_line_91 ← out.numeric "case_resv"
  let out := out.assign "case_resv"
    (subtract_one_where (← out.numeric "case_resv") paid_dcce_from_case)
  let df := out
  let out := out.assign "cum_olep" (← update_0_to_1 out "cum_olep")
  let df := out
  pure
    { out := out, df := df, paid_loss_changed := paid_loss_changed,
      case_resv_changed := case_resv_changed, paid_dcce_changed := paid_dcce_changed,
      case_resv_at_line_91 := case_resv_at_line_91 }

/-- The function `update_loss_prem_at_least_one`.  The body of the source ends
without a `return`; the result is the frame `out` that it has built. -/
def update_loss_prem_at_least_one (df all_lines_olep : DataFrame) (year first_ay : Int)
    (params : Params) : Option DataFrame :=
  (update_loss_prem_at_least_one_run df all_lines_olep year first_ay params).map fun run =>
    run.out

/-! ## `build_cur_year_df.cpp` -/

/-- Reduction of an integer to the range of a 32-bit `int`. -/
def int_wrap (z : Int) : Int :=
  (z + 2147483648) % 4294967296 - 2147483648

/-- The `int` subtraction `a - b`. -/
def int_sub (a b : Int) : Int := int_wrap (a - b)

/-- The `int` addition `a + b`. -/
def int_add (a b : Int) : Int := int_wrap (a + b)

/-- The sugar expression `k - w` of an `int` and a numeric vector. -/
def scalar_minus (k : Int) (w : NumericVector) : NumericVector :=
  w.map fun x => (k : ℚ) - x

/-- The sugar expression `k * v` of a constant and a numeric vector. -/
def scalar_times (k : ℚ) (v : NumericVector) : NumericVector :=
  v.map fun x => k * x

/-- The sugar expression `v * k` of a numeric vector and a constant. -/
def times_scalar (v : NumericVector) (k : ℚ) : NumericVector :=
  v.map fun x => x * k

/-- The sugar expression `v / k` of a numeric vector and a constant. -/
def div_scalar (v : NumericVector) (k : ℚ) : NumericVector :=
  v.map fun x => x / k

/-- The sugar expression `a + b` of two numeric vectors. -/
def vec_add (a b : NumericVector) : NumericVector :=
  List.zipWith (fun x y => x + y) a b

/-- The sugar function `Rcpp::unique` on a numeric vector: its distinct values. -/
def unique_values (v : NumericVector) : NumericVector :=
  v.eraseDups

/-- The conversion `double x = column`: Rcpp accepts a vector of exactly one
value and throws otherwise. -/
def as_double (v : NumericVector) : Option ℚ :=
  match v with
  | [x] => some x
  | _ => none

/-- The call `Rcpp::filter(df, Named(c1) = v1, ...)`, which neither this
repository nor Rcpp defines; read as the comments of the source describe it:
keep only the rows whose cell in each named column equals the given value. -/
def filter (df : DataFrame) (conds : List (String × Value)) : DataFrame :=
  let keep := (List.range df.nrow).filter fun i =>
    conds.all fun c => decide (df.cell c.1 i = some c.2)
  ⟨df.cols.map fun p => (p.1, p.2.take_rows keep)⟩

/-- The data-frame verbs `Rcpp::left_join`, `Rcpp::select` and `Rcpp::unique`
that `build_cur_year_df` calls on whole frames.  Neither this repository nor
Rcpp defines them; they are parameters of the embedding. -/
structure Verbs where
  left_join : DataFrame → DataFrame → List String → DataFrame
  select : DataFrame → List String → DataFrame
  unique : DataFrame → DataFrame

/-- The bundle `Rcpp::DataFrame::create(...)` that `build_cur_year_df` returns,
one field per named entry. -/
structure CurYearFrame where
  w : NumericVector
  ay : Int
  cur_d : NumericVector
  d : NumericVector
  cur_ay : NumericVector
  w_unique : NumericVector
  w_unique_size : Int
  select1 : DataFrame
  unique2 : DataFrame
  unique3 : DataFrame
  select5 : DataFrame

set_option linter.unusedVariables false in
/-- The function `build_cur_year_df`. -/
def build_cur_year_df (verbs : Verbs) (df all_lines_olep : DataFrame) (year first_ay : Int)
    (params : Params) : Option CurYearFrame := do
  let w ← df.numeric "w"
  let w_unique := unique_values w
  let w_unique_size := int_wrap w_unique.length
  let cur_d := vec_add (scalar_times 12 (scalar_minus (int_add (int_sub year first_ay) 1) w))
    (times_scalar (← df.numeric "quarter") 3)
  let d := div_scalar cur_d 3
  let left_join1 := verbs.left_join df df ["w", "d"]
  let select1 := verbs.select left_join1
    ["w", "d", "paid_loss", "rpt_loss", "paid_dcce", "rpt_counts", "closed_counts"]
  let left_join2 := verbs.left_join df df ["w"]
  let select2 := verbs.select left_join2 ["ay", "w"]
  let unique2 := verbs.unique select2
  let left_join3 := verbs.left_join df df ["d"]
  let select3 := verbs.select left_join3 ["dev_month", "d"]
  let unique3 := verbs.unique select3
  let left_join4 := verbs.left_join df all_lines_olep ["ay"]
  let select4 := verbs.select left_join4 ["cum_olep"]
  let filter4 := filter all_lines_olep [("dev_month", .num 12), ("lob", .str params.lob)]
  let select5 := verbs.select filter4 ["ay", "cum_olep"]
  let cur_year := all_lines_olep
  let filter5 := filter cur_year
    [("lob", .str params.lob), ("ay", .num year), ("dev_month", .num 12)]
  let current_ay ← as_double (← filter5.numeric "cum_olep")
  let cur_ay : NumericVector := [current_ay]
  pure
    { w := w, ay := year, cur_d := cur_d, d := d, cur_ay := cur_ay, w_unique := w_unique,
      w_unique_size := w_unique_size, select1 := select1, unique2 := unique2,
      unique3 := unique3, select5 := select5 }

/-- The condition of the filter on line 78 of `build_cur_year_df.cpp`, on row `i`
of `all_lines_olep`: `lob == params["lob"]`, `ay == year` and `dev_month == 12`. -/
def premium_row (all_lines_olep : DataFrame) (year : Int) (params : Params) (i : Nat) : Prop :=
  all_lines_olep.cell "lob" i = some (.str params.lob)
    ∧ all_lines_olep.cell "ay" i = some (.num year)
    ∧ all_lines_olep.cell "dev_month" i = some (.num 12)

instance (all_lines_olep : DataFrame) (year : Int) (params : Params) (i : Nat) :
    Decidable (premium_row all_lines_olep year params i) := by
  unfold premium_row
  infer_instance

/-! ## `extract_integer_in_brackets.cpp` -/

/-- The value `std::string::npos` of `size_t`. -/
def npos : Nat := 18446744073709551615

/-- The call `x.find(c)` for a pattern of one character: the index of its first
occurrence in `x`, or `npos`. -/
def find (x : List Char) (c : Char) : Nat :=
  if x.indexOf c < x.length then x.indexOf c else npos

/-- The conversion of an `int` to `size_t` (64 bits). -/
def to_size_t (z : Int) : Nat := (z % 18446744073709551616).toNat

/-- The call `x.substr(pos, len)`: throws when `pos` is past the end, and
otherwise takes at most `len` characters from `pos`. -/
def substr (x : List Char) (pos len : Nat) : Option (List Char) :=
  if pos > x.length then none else some ((x.drop pos).take len)

/-- The white space that `std::stoi` skips (`isspace` in the C locale): space,
tab, line feed, vertical tab, form feed, carriage return. -/
def isspace (c : Char) : Bool :=
  c.toNat = 32 || (9 ≤ c.toNat && c.toNat ≤ 13)

/-- The value of a decimal digit. -/
def digit_value (c : Char) : Nat := c.toNat - 48

/-- The text after the optional sign that `std::stoi` accepts. -/
def strip_sign (s : List Char) : List Char :=
  match s with
  | '-' :: t => t
  | '+' :: t => t
  | _ => s

/-- The call `std::stoi(s)`: skips white space, reads an optional sign and the
longest run of decimal digits, ignores what follows; throws when there is no
digit or when the value is not an `int`. -/
def stoi (s : List Char) : Option Int :=
  let s := s.dropWhile isspace
  let digits := (strip_sign s).takeWhile Char.isDigit
  if digits = [] then none
  else
    let magnitude : Int := (digits.foldl (fun acc c => acc * 10 + digit_value c) 0 : Nat)
    let value := if s.head? = some '-' then -magnitude else magnitude
    if -2147483648 ≤ value ∧ value ≤ 2147483647 then some value else none

/-- The function `extract_integer_in_brackets`; the positions are `int`s, the
arguments of `substr` are converted back to `size_t`. -/
def extract_integer_in_brackets (x : String) : Option Int := do
  let pos1 := int_wrap (find x.data '[')
  let pos2 := int_wrap (find x.data ']')
  let out ← stoi (← substr x.data (to_size_t (int_add pos1 1))
    (to_size_t (int_sub (int_sub pos2 pos1) 1)))
  pure out

/-! ## `divide_columns.cpp` and `parallel_divide.cpp` -/

/-- An `arma::vec`. -/
abbrev Vec := List ℚ

/-- An `arma::mat`: its dimensions and its columns, Armadillo storing a matrix
column by column. -/
structure Mat where
  n_rows : Nat
  n_cols : Nat
  cols : List (List ℚ)
deriving DecidableEq

/-- A matrix whose storage agrees with its dimensions. -/
def Mat.WellFormed (m : Mat) : Prop :=
  m.cols.length = m.n_cols ∧ ∀ c ∈ m.cols, c.length = m.n_rows

instance (m : Mat) : Decidable m.WellFormed := by
  unfold Mat.WellFormed
  infer_instance

/-- The conversion of an `int` to `arma::uword`, which has 32 bits in the
configuration of RcppArmadillo. -/
def to_uword (z : Int) : Nat := (z % 4294967296).toNat

/-- The constructor `arma::mat out(n, p)`; every entry is written before it is
read, the initial entries are taken as `0`. -/
def Mat.create (n p : Nat) : Mat :=
  ⟨n, p, List.replicate p (List.replicate n 0)⟩

/-- The initializer `arma::mat x = {{..}, {..}}`, which lists the rows. -/
def Mat.of_rows (rows : List (List ℚ)) : Mat :=
  let n_cols := match rows with
    | [] => 0
    | r :: _ => r.length
  ⟨rows.length, n_cols, (List.range n_cols).map fun j => rows.map fun r => r.getD j 0⟩

/-- The column view `x.col(i)`, with Armadillo's bounds check. -/
def Mat.col (m : Mat) (i : Nat) : Option (List ℚ) :=
  if i < m.n_cols then (m.cols[i]?) else none

/-- The element access `y(i)`, with Armadillo's bounds check. -/
def Vec.elem (y : Vec) (i : Nat) : Option ℚ := y[i]?

/-- The assignment `out.col(i) = v`, with Armadillo's checks of the index and of
the size. -/
def Mat.set_col (m : Mat) (i : Nat) (v : List ℚ) : Option Mat :=
  if i < m.n_cols ∧ v.length = m.n_rows then some { m with cols := m.cols.set i v } else none

/-- The entry in row `i` and column `j`. -/
def Mat.entry (m : Mat) (i j : Nat) : Option ℚ :=
  if i < m.n_rows ∧ j < m.n_cols then (m.cols[j]?).bind (fun column => (column[i]?)) else none

/-- The function `divide_columns`. -/
def divide_columns (x : Mat) (y : Vec) : Option Mat := do
  let n := int_wrap x.n_rows
  let p := int_wrap x.n_cols
  let out := Mat.create (to_uword n) (to_uword p)
  (List.range p.toNat).foldlM
    (fun out i => do
      let column ← x.col i
      let divisor ← Vec.elem y i
      out.set_col i (column.map fun v => v / divisor))
    out

/-- The function `divide_columns_test`: the matrix that it prints. -/
def divide_columns_test : Option Mat :=
  let x := Mat.of_rows [[1, 2, 3], [4, 5, 6]]
  let y : Vec := [1, 2, 3]
  divide_columns x y

/-- The function `parallel_divide`. -/
def parallel_divide (x : Mat) (y : Vec) : Option Mat := do
  let n := int_wrap x.n_rows
  let p := int_wrap x.n_cols
  let out := Mat.create (to_uword n) (to_uword p)
  (List.range p.toNat).foldlM
    (fun out i => do
      let column ← x.col i
      let divisor ← Vec.elem y i
      out.set_col i (column.map fun v => v / divisor))
    out

/-! ## The frame verbs of `build_cur_year_df`, from the specification -/

/-- The cells of row `i` in the key columns `keys`. -/
def DataFrame.key (df : DataFrame) (keys : List String) (i : Nat) : List (Option Value) :=
  keys.map fun k => df.cell k i

/-- Modelled from the spec: the rows that a view keyed by the columns `keys`
keeps.  `Rcpp::left_join` is defined neither in this repository nor in Rcpp; the
specification (4.2 Step 3 and section 9) describes a mapping from the key tuple
to the first matching row, "prefer the first occurrence in input order": a row
is kept when no earlier row has its key. -/
def first_rows (df : DataFrame) (keys : List String) : List Nat :=
  (List.range df.nrow).filter fun i =>
    (List.range i).all fun j => decide (df.key keys j ≠ df.key keys i)

set_option linter.unusedVariables false in
/-- Modelled from the spec: the missing `Rcpp::left_join(x, y, by)`, as the view
of `x` keyed by the columns `by` (4.2 Step 3).  In Steps 3 to 5 the second table
is `x` itself and adds no column; the one join with another table feeds
`select4`, which nothing reads. -/
def spec_left_join (x y : DataFrame) (keys : List String) : DataFrame :=
  ⟨x.cols.map fun p => (p.1, p.2.take_rows (first_rows x keys))⟩

/-- Modelled from the spec: the missing `Rcpp::select(df, names)`, the projection
on the named columns, "a projection, not an aggregation" (4.2 Step 3). -/
def spec_select (df : DataFrame) (names : List String) : DataFrame :=
  ⟨names.filterMap fun n => (DataFrame.lookup df.cols n).map fun c => (n, c)⟩

/-- Modelled from the spec: the missing `Rcpp::unique(df)` on frames, the
distinct rows in input order, "must deduplicate exactly" (4.2 Steps 4 and 5). -/
def spec_unique (df : DataFrame) : DataFrame :=
  ⟨df.cols.map fun p => (p.1, p.2.take_rows (first_rows df (df.cols.map Prod.fst)))⟩

/-- Modelled from the spec: the three missing frame verbs together. -/
def spec_verbs : Verbs := ⟨spec_left_join, spec_select, spec_unique⟩

/-! ## Record sets used as concrete inputs -/

/-- A record set with three rows: the first has a floored `paid_loss` next to a
`case_resv` of `1`, the second has both `paid_loss` and `paid_dcce` floored, the
third has a floored `case_resv`. -/
def records_a : DataFrame :=
  ⟨[("paid_loss", .numeric [0, 0, 5]), ("case_resv", .numeric [1, 2, 0]),
    ("paid_dcce", .numeric [3, 0, 0]), ("cum_olep", .numeric [0, 7, 1])]⟩

/-- A record set with three rows: in the first and the third neither `paid_loss`
nor `paid_dcce` is `0`, in the first `case_resv` is `0`, in the second both
`paid_loss` and `paid_dcce` are `0`. -/
def records_b : DataFrame :=
  ⟨[("paid_loss", .numeric [4, 0, 3]), ("case_resv", .numeric [0, 2, 5]),
    ("paid_dcce", .numeric [1, 0, 2]), ("cum_olep", .numeric [10, 10, 0])]⟩

/-- A record set with three rows whose columns `paid_loss`, `paid_dcce` and
`cum_olep` each hold a `0`, an integer from `1` on and a value strictly between
`0` and `1`. -/
def records_c : DataFrame :=
  ⟨[("paid_loss", .numeric [0, 1 / 2, 5]), ("case_resv", .numeric [1, 2, 0]),
    ("paid_dcce", .numeric [1 / 4, 0, 3]), ("cum_olep", .numeric [7, 3 / 4, 0])]⟩

/-- A record set with the two columns that the age computation reads. -/
def quarters_a : DataFrame :=
  ⟨[("w", .numeric [1, 3]), ("quarter", .numeric [4, 2])]⟩

/-- A premium table with three rows, one of them for line `A`, year 2021 at
twelve months. -/
def premium_table_a : DataFrame :=
  ⟨[("lob", .character ["A", "A", "B"]), ("ay", .numeric [2021, 2020, 2021]),
    ("dev_month", .numeric [12, 12, 12]), ("cum_olep", .numeric [100, 200, 300])]⟩

/-- A record set with two rows of the same origin, in quarters 2 and 4. -/
def same_origin_a : DataFrame :=
  ⟨[("w", .numeric [1, 1]), ("quarter", .numeric [2, 4])]⟩

/-- A record set in which the first and the third row share the key `(w, d)`. -/
def triangle_a : DataFrame :=
  ⟨[("w", .numeric [1, 2, 1]), ("d", .numeric [4, 4, 4]), ("quarter", .numeric [4, 4, 4]),
    ("paid_loss", .numeric [10, 20, 30]), ("rpt_loss", .numeric [11, 21, 31]),
    ("paid_dcce", .numeric [1, 2, 3]), ("rpt_counts", .numeric [5, 6, 7]),
    ("closed_counts", .numeric [2, 3, 4])]⟩

/-! ## Columns of a data frame -/

theorem lookup_store_same (names : List (String × Column)) (name : String) (c : Column) :
    DataFrame.lookup (DataFrame.store names name c) name = some c := by
  induction names with
  | nil => simp [DataFrame.store, DataFrame.lookup]
  | cons p rest ih =>
    by_cases h : p.1 = name
    · simp [DataFrame.store, DataFrame.lookup, h]
    · simp [DataFrame.store, DataFrame.lookup, h, ih]

theorem lookup_store_other (names : List (String × Column)) (name other : String) (c : Column)
    (h : name ≠ other) :
    DataFrame.lookup (DataFrame.store names name c) other = DataFrame.lookup names other := by
  induction names with
  | nil => simp [DataFrame.store, DataFrame.lookup, h]
  | cons p rest ih =>
    by_cases hp : p.1 = name
    · have hne : ¬ p.1 = other := by rw [hp]; exact h
      simp [DataFrame.store, DataFrame.lookup, hp, h, hne]
    · by_cases ho : p.1 = other
      · subst ho
        simp [DataFrame.store, DataFrame.lookup, hp]
      · simp [DataFrame.store, DataFrame.lookup, hp, ho, ih]

theorem numeric_assign_same (df : DataFrame) (name : String) (v : NumericVector) :
    (df.assign name v).numeric name = some v := by
  simp [DataFrame.numeric, DataFrame.assign, lookup_store_same]

theorem numeric_assign_other (df : DataFrame) (name other : String) (v : NumericVector)
    (h : name ≠ other) : (df.assign name v).numeric other = df.numeric other := by
  simp [DataFrame.numeric, DataFrame.assign, lookup_store_other _ _ _ _ h]

theorem lookup_mem (names : List (String × Column)) (name : String) (c : Column)
    (h : DataFrame.lookup names name = some c) : ∃ p ∈ names, p.2 = c := by
  induction names with
  | nil => simp [DataFrame.lookup] at h
  | cons p rest ih =>
    by_cases hp : p.1 = name
    · simp [DataFrame.lookup, hp] at h
      exact ⟨p, by simp, h⟩
    · simp [DataFrame.lookup, hp] at h
      obtain ⟨q, hq, hqc⟩ := ih h
      exact ⟨q, by simp [hq], hqc⟩

theorem numeric_length (df : DataFrame) (hwf : df.WellFormed) (name : String)
    (v : NumericVector) (h : df.numeric name = some v) : v.length = df.nrow := by
  unfold DataFrame.numeric at h
  split at h
  · rename_i w hw
    obtain ⟨p, hp, hpc⟩ := lookup_mem _ _ _ hw
    have := hwf p hp
    simp only [Option.some.injEq] at h
    rw [hpc] at this
    simpa [Column.length, h] using this
  · simp at h

/-! ## The floor helper -/

theorem foldl_push_floor (col acc : NumericVector) :
    col.foldl (fun out x => if x = 0 then out ++ [1] else out ++ [x]) acc
      = acc ++ col.map (fun x => if x = 0 then 1 else x) := by
  induction col generalizing acc with
  | nil => simp
  | cons x rest ih =>
    by_cases hx : x = 0
    · simp [List.foldl, ih, hx]
    · simp [List.foldl, ih, hx]

theorem update_0_to_1_eq (df : DataFrame) (col_name : String) (col : NumericVector)
    (h : df.numeric col_name = some col) :
    update_0_to_1 df col_name = some (col.map (fun x => if x = 0 then 1 else x)) := by
  simp [update_0_to_1, h, foldl_push_floor]

theorem update_0_to_1_none (df : DataFrame) (col_name : String)
    (h : df.numeric col_name = none) : update_0_to_1 df col_name = none := by
  simp [update_0_to_1, h]

/-! ## Evaluation of `update_loss_prem_at_least_one` -/

theorem vec_ne_self (v : NumericVector) : vec_ne v v = List.replicate v.length false := by
  induction v with
  | nil => rfl
  | cons x rest ih =>
    have h : vec_ne (x :: rest) (x :: rest) = false :: vec_ne rest rest := by
      simp [vec_ne]
    rw [h, ih]
    rfl

theorem mask_of_unchanged (m n : Nat) :
    vec_and (vec_is (List.replicate m false) true) (vec_is (List.replicate n false) false)
      = List.replicate (min m n) false := by
  induction m generalizing n with
  | zero => simp [vec_and, vec_is]
  | succ m ih =>
    cases n with
    | zero => simp [vec_and, vec_is]
    | succ n =>
      have h := ih n
      simp only [vec_and, vec_is] at h
      simp [vec_and, vec_is, List.replicate_succ, Nat.succ_min_succ, h]

theorem subtract_one_where_false (x : NumericVector) (n : Nat) :
    subtract_one_where x (List.replicate n false) = x.take n := by
  induction x generalizing n with
  | nil => simp [subtract_one_where]
  | cons v rest ih =>
    cases n with
    | zero => simp [subtract_one_where]
    | succ n =>
      have h := ih n
      simp only [subtract_one_where] at h
      simp [subtract_one_where, List.replicate_succ, h]

theorem update_loss_prem_run_eval (df all_lines_olep : DataFrame) (year first_ay : Int)
    (params : Params) (pl cr pd co : NumericVector)
    (hpl : df.numeric "paid_loss" = some pl) (hcr : df.numeric "case_resv" = some cr)
    (hpd : df.numeric "paid_dcce" = some pd) (hco : df.numeric "cum_olep" = some co) :
    ∃ run, update_loss_prem_at_least_one_run df all_lines_olep year first_ay params = some run
      ∧ run.df = run.out
      ∧ run.out.numeric "paid_loss" = some (pl.map (fun x => if x = 0 then 1 else x))
      ∧ run.out.numeric "paid_dcce" = some (pd.map (fun x => if x = 0 then 1 else x))
      ∧ run.out.numeric "cum_olep" = some (co.map (fun x => if x = 0 then 1 else x))
      ∧ run.paid_loss_changed = List.replicate pl.length false
      ∧ run.case_resv_changed = List.replicate cr.length false
      ∧ run.paid_dcce_changed = List.replicate pd.length false
      ∧ run.case_resv_at_line_91
          = (cr.map (fun x => if x = 0 then 1 else x)).take (min pl.length cr.length)
      ∧ run.out.numeric "case_resv" = some
          (((cr.map (fun x => if x = 0 then 1 else x)).take (min pl.length cr.length)).take
            (min pd.length cr.length)) := by
  have n1 : ("paid_loss" : String) ≠ "case_resv" := by decide
  have n2 : ("paid_loss" : String) ≠ "paid_dcce" := by decide
  have n3 : ("paid_loss" : String) ≠ "cum_olep" := by decide
  have n4 : ("case_resv" : String) ≠ "paid_dcce" := by decide
  have n5 : ("case_resv" : String) ≠ "cum_olep" := by decide
  have n6 : ("paid_dcce" : String) ≠ "cum_olep" := by decide
  have n7 : ("case_resv" : String) ≠ "paid_loss" := by decide
  have n8 : ("paid_dcce" : String) ≠ "paid_loss" := by decide
  have n9 : ("cum_olep" : String) ≠ "paid_loss" := by decide
  have n10 : ("paid_dcce" : String) ≠ "case_resv" := by decide
  have n11 : ("cum_olep" : String) ≠ "case_resv" := by decide
  have n12 : ("cum_olep" : String) ≠ "paid_dcce" := by decide
  simp [update_loss_prem_at_least_one_run, update_0_to_1_eq, numeric_assign_same,
    numeric_assign_other, hpl, hcr, hpd, hco, n1, n2, n3, n4, n5, n6, n7, n8, n9, n10, n11, n12,
    vec_ne_self, mask_of_unchanged, subtract_one_where_false]

theorem update_loss_prem_eval (df all_lines_olep : DataFrame) (year first_ay : Int)
    (params : Params) (pl cr pd co : NumericVector)
    (hpl : df.numeric "paid_loss" = some pl) (hcr : df.numeric "case_resv" = some cr)
    (hpd : df.numeric "paid_dcce" = some pd) (hco : df.numeric "cum_olep" = some co) :
    ∃ out, update_loss_prem_at_least_one df all_lines_olep year first_ay params = some out
      ∧ out.numeric "paid_loss" = some (pl.map (fun x => if x = 0 then 1 else x))
      ∧ out.numeric "paid_dcce" = some (pd.map (fun x => if x = 0 then 1 else x))
      ∧ out.numeric "cum_olep" = some (co.map (fun x => if x = 0 then 1 else x))
      ∧ out.numeric "case_resv" = some
          (((cr.map (fun x => if x = 0 then 1 else x)).take (min pl.length cr.length)).take
            (min pd.length cr.length)) := by
  obtain ⟨run, hrun, -, h1, h2, h3, -, -, -, -, h4⟩ :=
    update_loss_prem_run_eval df all_lines_olep year first_ay params pl cr pd co hpl hcr hpd hco
  exact ⟨run.out, by simp [update_loss_prem_at_least_one, hrun], h1, h2, h3, h4⟩

theorem take_of_same_length (pl cr pd : NumericVector) (h1 : pl.length = cr.length)
    (h2 : pd.length = cr.length) :
    ((cr.map (fun x => if x = (0 : ℚ) then 1 else x)).take (min pl.length cr.length)).take
      (min pd.length cr.length) = cr.map (fun x => if x = 0 then 1 else x) := by
  rw [h1, h2, Nat.min_self, List.take_take, Nat.min_self]
  exact List.take_of_length_le (by simp)

theorem update_loss_prem_eval_frame (df all_lines_olep : DataFrame) (year first_ay : Int)
    (params : Params) (pl cr pd co : NumericVector) (hwf : df.WellFormed)
    (hpl : df.numeric "paid_loss" = some pl) (hcr : df.numeric "case_resv" = some cr)
    (hpd : df.numeric "paid_dcce" = some pd) (hco : df.numeric "cum_olep" = some co) :
    ∃ out, update_loss_prem_at_least_one df all_lines_olep year first_ay params = some out
      ∧ out.numeric "paid_loss" = some (pl.map (fun x => if x = 0 then 1 else x))
      ∧ out.numeric "case_resv" = some (cr.map (fun x => if x = 0 then 1 else x))
      ∧ out.numeric "paid_dcce" = some (pd.map (fun x => if x = 0 then 1 else x))
      ∧ out.numeric "cum_olep" = some (co.map (fun x => if x = 0 then 1 else x)) := by
  obtain ⟨out, hout, h1, h2, h3, h4⟩ :=
    update_loss_prem_eval df all_lines_olep year first_ay params pl cr pd co hpl hcr hpd hco
  have hl1 : pl.length = cr.length := by
    rw [numeric_length df hwf _ _ hpl, numeric_length df hwf _ _ hcr]
  have hl2 : pd.length = cr.length := by
    rw [numeric_length df hwf _ _ hpd, numeric_length df hwf _ _ hcr]
  rw [take_of_same_length pl cr pd hl1 hl2] at h4
  exact ⟨out, hout, h1, h4, h2, h3⟩

theorem floor_ne_zero (v : NumericVector) :
    ∀ x ∈ v.map (fun x => if x = (0 : ℚ) then 1 else x), x ≠ 0 := by
  intro x hx
  obtain ⟨y, -, rfl⟩ := List.mem_map.mp hx
  by_cases hy : y = 0 <;> simp [hy]

theorem floor_twice (v : NumericVector) :
    (v.map (fun x => if x = 0 then 1 else x)).map (fun x => if x = (0 : ℚ) then 1 else x)
      = v.map (fun x => if x = 0 then 1 else x) := by
  rw [List.map_map]
  apply List.map_congr_left
  intro x _
  by_cases hx : x = 0 <;> simp [hx]

theorem floor_ge_one_iff (x : ℚ) :
    (1 ≤ (if x = 0 then (1 : ℚ) else x)) ↔ (x = 0 ∨ 1 ≤ x) := by
  by_cases hx : x = 0 <;> simp [hx]

theorem floor_ge_one_of_nat (x : ℚ) (h : ∃ n : ℕ, x = n) :
    1 ≤ (if x = 0 then (1 : ℚ) else x) := by
  obtain ⟨n, rfl⟩ := h
  rw [floor_ge_one_iff]
  rcases Nat.eq_zero_or_pos n with h0 | hpos
  · left; simp [h0]
  · right; exact_mod_cast hpos

/-! ## Claims on `update_loss_prem_at_least_one` -/

/-- Evaluation for C1: on `paid_loss=[0,4]`, `case_resv=[2,0]`, `paid_dcce=[1,1]`,
`cum_olep=[10,10]` the call returns `paid_loss=[1,4]` and `case_resv=[2,1]`.  The
`1` that the floor adds to `paid_loss` in the first row is not taken from
`case_resv`, for which the claim gives `[1,1]`. -/
theorem C1_failing_input :
    ∃ out,
      update_loss_prem_at_least_one
        ⟨[("paid_loss", .numeric [0, 4]), ("case_resv", .numeric [2, 0]),
          ("paid_dcce", .numeric [1, 1]), ("cum_olep", .numeric [10, 10])]⟩
        ⟨[]⟩ 2021 2020 ⟨"A"⟩ = some out
      ∧ out.numeric "paid_loss" = some [1, 4]
      ∧ out.numeric "case_resv" = some [2, 1]
      ∧ out.numeric "case_resv" ≠ some [1, 1] := by
  obtain ⟨out, hout, hp, hc, -, -⟩ :=
    update_loss_prem_eval_frame
      ⟨[("paid_loss", .numeric [0, 4]), ("case_resv", .numeric [2, 0]),
        ("paid_dcce", .numeric [1, 1]), ("cum_olep", .numeric [10, 10])]⟩
      ⟨[]⟩ 2021 2020 ⟨"A"⟩ [0, 4] [2, 0] [1, 1] [10, 10] (by decide) rfl rfl rfl rfl
  have h : out.numeric "case_resv" = some [2, 1] := by
    rw [hc]; simp
  refine ⟨out, hout, ?_, h, ?_⟩
  · rw [hp]; simp
  · rw [h]; simp

/-- Claim C2: for every record set, the `paid_loss`, `paid_dcce` and `cum_olep`
columns that `update_loss_prem_at_least_one` produces have the length of the
input columns, and in every row the output value is `1` if the input value is
exactly `0` and the input value otherwise. -/
theorem C2_floored_columns (df all_lines_olep : DataFrame) (year first_ay : Int)
    (params : Params) (pl cr pd co : NumericVector)
    (hpl : df.numeric "paid_loss" = some pl) (hcr : df.numeric "case_resv" = some cr)
    (hpd : df.numeric "paid_dcce" = some pd) (hco : df.numeric "cum_olep" = some co) :
    ∃ out pl_out pd_out co_out,
      update_loss_prem_at_least_one df all_lines_olep year first_ay params = some out
      ∧ out.numeric "paid_loss" = some pl_out
      ∧ out.numeric "paid_dcce" = some pd_out
      ∧ out.numeric "cum_olep" = some co_out
      ∧ pl_out.length = pl.length ∧ pd_out.length = pd.length ∧ co_out.length = co.length
      ∧ (∀ (i : Nat) (x : ℚ), pl[i]? = some x → pl_out[i]? = some (if x = 0 then 1 else x))
      ∧ (∀ (i : Nat) (x : ℚ), pd[i]? = some x → pd_out[i]? = some (if x = 0 then 1 else x))
      ∧ (∀ (i : Nat) (x : ℚ), co[i]? = some x → co_out[i]? = some (if x = 0 then 1 else x)) := by
  obtain ⟨out, hout, h1, h2, h3, -⟩ :=
    update_loss_prem_eval df all_lines_olep year first_ay params pl cr pd co hpl hcr hpd hco
  refine ⟨out, _, _, _, hout, h1, h2, h3, by simp, by simp, by simp, ?_, ?_, ?_⟩ <;>
  · intro i x hx
    simp [List.getElem?_map, hx]

/-- Witness for C2 on a two-row record set. -/
theorem C2_floored_columns_witness :
    ∃ out pl_out pd_out co_out,
      update_loss_prem_at_least_one
        ⟨[("paid_loss", .numeric [0, 4]), ("case_resv", .numeric [2, 0]),
          ("paid_dcce", .numeric [1, 0]), ("cum_olep", .numeric [0, 10])]⟩
        ⟨[]⟩ 2021 2020 ⟨"A"⟩ = some out
      ∧ out.numeric "paid_loss" = some pl_out
      ∧ out.numeric "paid_dcce" = some pd_out
      ∧ out.numeric "cum_olep" = some co_out
      ∧ pl_out.length = [(0 : ℚ), 4].length ∧ pd_out.length = [(1 : ℚ), 0].length
      ∧ co_out.length = [(0 : ℚ), 10].length
      ∧ (∀ (i : Nat) (x : ℚ), [(0 : ℚ), 4][i]? = some x →
          pl_out[i]? = some (if x = 0 then 1 else x))
      ∧ (∀ (i : Nat) (x : ℚ), [(1 : ℚ), 0][i]? = some x →
          pd_out[i]? = some (if x = 0 then 1 else x))
      ∧ (∀ (i : Nat) (x : ℚ), [(0 : ℚ), 10][i]? = some x →
          co_out[i]? = some (if x = 0 then 1 else x)) :=
  C2_floored_columns
    ⟨[("paid_loss", .numeric [0, 4]), ("case_resv", .numeric [2, 0]),
      ("paid_dcce", .numeric [1, 0]), ("cum_olep", .numeric [0, 10])]⟩
    ⟨[]⟩ 2021 2020 ⟨"A"⟩ [0, 4] [2, 0] [1, 0] [0, 10] rfl rfl rfl rfl

/-- Claim C3: for every record set, `update_loss_prem_at_least_one` returns a
frame whose columns `paid_loss`, `case_resv`, `paid_dcce` and `cum_olep` have the
length of the input columns and hold no exact zero in any row. -/
theorem C3_no_exact_zero (df all_lines_olep : DataFrame) (year first_ay : Int)
    (params : Params) (pl cr pd co : NumericVector) (hwf : df.WellFormed)
    (hpl : df.numeric "paid_loss" = some pl) (hcr : df.numeric "case_resv" = some cr)
    (hpd : df.numeric "paid_dcce" = some pd) (hco : df.numeric "cum_olep" = some co) :
    ∃ out pl_out cr_out pd_out co_out,
      update_loss_prem_at_least_one df all_lines_olep year first_ay params = some out
      ∧ out.numeric "paid_loss" = some pl_out
      ∧ out.numeric "case_resv" = some cr_out
      ∧ out.numeric "paid_dcce" = some pd_out
      ∧ out.numeric "cum_olep" = some co_out
      ∧ pl_out.length = pl.length ∧ cr_out.length = cr.length
      ∧ pd_out.length = pd.length ∧ co_out.length = co.length
      ∧ (∀ x ∈ pl_out, x ≠ 0) ∧ (∀ x ∈ cr_out, x ≠ 0)
      ∧ (∀ x ∈ pd_out, x ≠ 0) ∧ (∀ x ∈ co_out, x ≠ 0) := by
  obtain ⟨out, hout, h1, h2, h3, h4⟩ :=
    update_loss_prem_eval_frame df all_lines_olep year first_ay params pl cr pd co hwf
      hpl hcr hpd hco
  exact ⟨out, _, _, _, _, hout, h1, h2, h3, h4, by simp, by simp, by simp, by simp,
    floor_ne_zero pl, floor_ne_zero cr, floor_ne_zero pd, floor_ne_zero co⟩

/-- Witness for C3 on a three-row record set with a zero in every column. -/
theorem C3_no_exact_zero_witness :
    records_a.WellFormed
    ∧ ∃ out pl_out cr_out pd_out co_out,
      update_loss_prem_at_least_one records_a ⟨[]⟩ 2021 2020 ⟨"A"⟩ = some out
      ∧ out.numeric "paid_loss" = some pl_out
      ∧ out.numeric "case_resv" = some cr_out
      ∧ out.numeric "paid_dcce" = some pd_out
      ∧ out.numeric "cum_olep" = some co_out
      ∧ pl_out.length = [(0 : ℚ), 0, 5].length ∧ cr_out.length = [(1 : ℚ), 2, 0].length
      ∧ pd_out.length = [(3 : ℚ), 0, 0].length ∧ co_out.length = [(0 : ℚ), 7, 1].length
      ∧ (∀ x ∈ pl_out, x ≠ 0) ∧ (∀ x ∈ cr_out, x ≠ 0)
      ∧ (∀ x ∈ pd_out, x ≠ 0) ∧ (∀ x ∈ co_out, x ≠ 0) :=
  ⟨by decide,
    C3_no_exact_zero records_a ⟨[]⟩ 2021 2020 ⟨"A"⟩ [0, 0, 5] [1, 2, 0] [3, 0, 0]
      [0, 7, 1] (by decide) rfl rfl rfl rfl⟩

/-- Claim C4: for every record set a second application of
`update_loss_prem_at_least_one` returns, in each of the columns `paid_loss`,
`case_resv`, `paid_dcce` and `cum_olep`, the column that the first application
returned. -/
theorem C4_idempotent (df all_lines_olep : DataFrame) (year first_ay : Int)
    (params : Params) (pl cr pd co : NumericVector) (hwf : df.WellFormed)
    (hpl : df.numeric "paid_loss" = some pl) (hcr : df.numeric "case_resv" = some cr)
    (hpd : df.numeric "paid_dcce" = some pd) (hco : df.numeric "cum_olep" = some co) :
    ∃ out1 out2 pl1 cr1 pd1 co1,
      update_loss_prem_at_least_one df all_lines_olep year first_ay params = some out1
      ∧ update_loss_prem_at_least_one out1 all_lines_olep year first_ay params = some out2
      ∧ out1.numeric "paid_loss" = some pl1 ∧ out2.numeric "paid_loss" = some pl1
      ∧ out1.numeric "case_resv" = some cr1 ∧ out2.numeric "case_resv" = some cr1
      ∧ out1.numeric "paid_dcce" = some pd1 ∧ out2.numeric "paid_dcce" = some pd1
      ∧ out1.numeric "cum_olep" = some co1 ∧ out2.numeric "cum_olep" = some co1
      ∧ pl1.length = pl.length ∧ cr1.length = cr.length
      ∧ pd1.length = pd.length ∧ co1.length = co.length := by
  obtain ⟨out1, hout1, a1, a2, a3, a4⟩ :=
    update_loss_prem_eval_frame df all_lines_olep year first_ay params pl cr pd co hwf
      hpl hcr hpd hco
  obtain ⟨out2, hout2, b1, b3, b4, b2⟩ :=
    update_loss_prem_eval out1 all_lines_olep year first_ay params _ _ _ _ a1 a2 a3 a4
  have hl1 : pl.length = cr.length := by
    rw [numeric_length df hwf _ _ hpl, numeric_length df hwf _ _ hcr]
  have hl2 : pd.length = cr.length := by
    rw [numeric_length df hwf _ _ hpd, numeric_length df hwf _ _ hcr]
  rw [take_of_same_length _ _ _ (by simpa using hl1) (by simpa using hl2), floor_twice] at b2
  rw [floor_twice] at b1 b3 b4
  exact ⟨out1, out2, _, _, _, _, hout1, hout2, a1, b1, a2, b2, a3, b3, a4, b4, by simp,
    by simp, by simp, by simp⟩

/-- Witness for C4 on a three-row record set with a zero in every column. -/
theorem C4_idempotent_witness :
    records_a.WellFormed
    ∧ ∃ out1 out2 pl1 cr1 pd1 co1,
      update_loss_prem_at_least_one records_a ⟨[]⟩ 2021 2020 ⟨"A"⟩ = some out1
      ∧ update_loss_prem_at_least_one out1 ⟨[]⟩ 2021 2020 ⟨"A"⟩ = some out2
      ∧ out1.numeric "paid_loss" = some pl1 ∧ out2.numeric "paid_loss" = some pl1
      ∧ out1.numeric "case_resv" = some cr1 ∧ out2.numeric "case_resv" = some cr1
      ∧ out1.numeric "paid_dcce" = some pd1 ∧ out2.numeric "paid_dcce" = some pd1
      ∧ out1.numeric "cum_olep" = some co1 ∧ out2.numeric "cum_olep" = some co1
      ∧ pl1.length = [(0 : ℚ), 0, 5].length ∧ cr1.length = [(1 : ℚ), 2, 0].length
      ∧ pd1.length = [(3 : ℚ), 0, 0].length ∧ co1.length = [(0 : ℚ), 7, 1].length :=
  ⟨by decide,
    C4_idempotent records_a ⟨[]⟩ 2021 2020 ⟨"A"⟩ [0, 0, 5] [1, 2, 0] [3, 0, 0]
      [0, 7, 1] (by decide) rfl rfl rfl rfl⟩

/-- Counterexample to C5 as stated: on `paid_loss=[4]`, `case_resv=[0]`,
`paid_dcce=[1]`, `cum_olep=[10]` neither `paid_loss` nor `paid_dcce` is floored,
yet the call returns `case_resv=[1]`, not the original `[0]`. -/
theorem C5_counterexample :
    ∃ out,
      update_loss_prem_at_least_one
        ⟨[("paid_loss", .numeric [4]), ("case_resv", .numeric [0]),
          ("paid_dcce", .numeric [1]), ("cum_olep", .numeric [10])]⟩
        ⟨[]⟩ 2021 2020 ⟨"A"⟩ = some out
      ∧ out.numeric "case_resv" = some [1]
      ∧ out.numeric "case_resv" ≠ some [0] := by
  obtain ⟨out, hout, -, hcase, -, -⟩ :=
    update_loss_prem_eval_frame
      ⟨[("paid_loss", .numeric [4]), ("case_resv", .numeric [0]),
        ("paid_dcce", .numeric [1]), ("cum_olep", .numeric [10])]⟩
      ⟨[]⟩ 2021 2020 ⟨"A"⟩ [4] [0] [1] [10] (by decide) rfl rfl rfl rfl
  have h : out.numeric "case_resv" = some [1] := by
    rw [hcase]; simp
  refine ⟨out, hout, h, ?_⟩
  rw [h]
  simp

/-- Claim C5, amended: in every row in which neither `paid_loss` nor `paid_dcce`
was floored (both originally non-zero), the `case_resv` that
`update_loss_prem_at_least_one` produces is the original `case_resv` when that is
non-zero, and `1` when it is `0` (the floor of `case_resv` itself). -/
theorem C5_case_resv_frame (df all_lines_olep : DataFrame) (year first_ay : Int)
    (params : Params) (pl cr pd co : NumericVector) (hwf : df.WellFormed)
    (hpl : df.numeric "paid_loss" = some pl) (hcr : df.numeric "case_resv" = some cr)
    (hpd : df.numeric "paid_dcce" = some pd) (hco : df.numeric "cum_olep" = some co) :
    ∃ out cr_out,
      update_loss_prem_at_least_one df all_lines_olep year first_ay params = some out
      ∧ out.numeric "case_resv" = some cr_out
      ∧ cr_out.length = cr.length
      ∧ (∀ (i : Nat) (p c d : ℚ), pl[i]? = some p → cr[i]? = some c → pd[i]? = some d →
          p ≠ 0 → d ≠ 0 → cr_out[i]? = some (if c = 0 then 1 else c)) := by
  obtain ⟨out, hout, -, hcase, -, -⟩ :=
    update_loss_prem_eval_frame df all_lines_olep year first_ay params pl cr pd co hwf
      hpl hcr hpd hco
  refine ⟨out, _, hout, hcase, by simp, ?_⟩
  intro i p c d _ hc _ _ _
  simp [List.getElem?_map, hc]

/-- Witness for C5 (amended) on a three-row record set in whose first and third
row neither `paid_loss` nor `paid_dcce` is `0`. -/
theorem C5_case_resv_frame_witness :
    records_b.WellFormed
    ∧ ∃ out cr_out,
      update_loss_prem_at_least_one records_b ⟨[]⟩ 2021 2020 ⟨"A"⟩ = some out
      ∧ out.numeric "case_resv" = some cr_out
      ∧ cr_out.length = [(0 : ℚ), 2, 5].length
      ∧ (∀ (i : Nat) (p c d : ℚ), [(4 : ℚ), 0, 3][i]? = some p →
          [(0 : ℚ), 2, 5][i]? = some c → [(1 : ℚ), 0, 2][i]? = some d →
          p ≠ 0 → d ≠ 0 → cr_out[i]? = some (if c = 0 then 1 else c)) :=
  ⟨by decide,
    C5_case_resv_frame records_b ⟨[]⟩ 2021 2020 ⟨"A"⟩ [4, 0, 3] [0, 2, 5] [1, 0, 2]
      [10, 10, 0] (by decide) rfl rfl rfl rfl⟩

/-- Evaluation for C6: on `paid_loss=[0]`, `case_resv=[2]`, `paid_dcce=[5]`,
`cum_olep=[10]` the call returns `paid_loss=[1]`, `case_resv=[2]` and
`paid_dcce=[5]`: the row sums to `7` before the call and to `8` after it. -/
theorem C6_failing_input :
    ∃ out,
      update_loss_prem_at_least_one
        ⟨[("paid_loss", .numeric [0]), ("case_resv", .numeric [2]),
          ("paid_dcce", .numeric [5]), ("cum_olep", .numeric [10])]⟩
        ⟨[]⟩ 2021 2020 ⟨"A"⟩ = some out
      ∧ out.numeric "paid_loss" = some [1]
      ∧ out.numeric "case_resv" = some [2]
      ∧ out.numeric "paid_dcce" = some [5]
      ∧ (0 : ℚ) + 2 + 5 = 7 ∧ (1 : ℚ) + 2 + 5 = 8 ∧ (8 : ℚ) ≠ 7 := by
  obtain ⟨out, hout, hp, hc, hd, -⟩ :=
    update_loss_prem_eval_frame
      ⟨[("paid_loss", .numeric [0]), ("case_resv", .numeric [2]),
        ("paid_dcce", .numeric [5]), ("cum_olep", .numeric [10])]⟩
      ⟨[]⟩ 2021 2020 ⟨"A"⟩ [0] [2] [5] [10] (by decide) rfl rfl rfl rfl
  refine ⟨out, hout, ?_, ?_, ?_, by norm_num, by norm_num, by norm_num⟩
  · rw [hp]; simp
  · rw [hc]; simp
  · rw [hd]; simp

/-- Evaluation for C7: on `paid_loss=[0,4]`, `case_resv=[2,0]`, `paid_dcce=[1,1]`,
`cum_olep=[10,10]` the body ends with `df` naming the frame that it returns, so
`df` reads `paid_loss=[1,4]` and `case_resv=[2,1]` where the caller passed
`[0,4]` and `[2,0]`, and each of the three `*_changed` flags is `false` in both
rows, also in those where a `0` became `1`. -/
theorem C7_failing_input :
    ∃ run,
      update_loss_prem_at_least_one_run
        ⟨[("paid_loss", .numeric [0, 4]), ("case_resv", .numeric [2, 0]),
          ("paid_dcce", .numeric [1, 1]), ("cum_olep", .numeric [10, 10])]⟩
        ⟨[]⟩ 2021 2020 ⟨"A"⟩ = some run
      ∧ run.df = run.out
      ∧ run.df.numeric "paid_loss" = some [1, 4]
      ∧ run.df.numeric "paid_loss" ≠ some [0, 4]
      ∧ run.df.numeric "case_resv" = some [2, 1]
      ∧ run.df.numeric "case_resv" ≠ some [2, 0]
      ∧ run.paid_loss_changed = [false, false]
      ∧ run.case_resv_changed = [false, false]
      ∧ run.paid_dcce_changed = [false, false] := by
  obtain ⟨run, hrun, hdf, hp, -, -, f1, f2, f3, -, hc⟩ :=
    update_loss_prem_run_eval
      ⟨[("paid_loss", .numeric [0, 4]), ("case_resv", .numeric [2, 0]),
        ("paid_dcce", .numeric [1, 1]), ("cum_olep", .numeric [10, 10])]⟩
      ⟨[]⟩ 2021 2020 ⟨"A"⟩ [0, 4] [2, 0] [1, 1] [10, 10] rfl rfl rfl rfl
  have h1 : run.df.numeric "paid_loss" = some [1, 4] := by
    rw [hdf, hp]; simp
  have h2 : run.df.numeric "case_resv" = some [2, 1] := by
    rw [hdf, hc]; simp
  refine ⟨run, hrun, hdf, h1, ?_, h2, ?_, ?_, ?_, ?_⟩
  · rw [h1]; simp
  · rw [h2]; simp
  · rw [f1]; rfl
  · rw [f2]; rfl
  · rw [f3]; rfl

/-- Counterexample to C8 as stated: the non-negative record set
`paid_loss=[1/2]`, `case_resv=[1]`, `paid_dcce=[1/4]`, `cum_olep=[3/4]` is returned
with `paid_loss=[1/2]`, `paid_dcce=[1/4]` and `cum_olep=[3/4]`, all below `1`. -/
theorem C8_counterexample :
    ∃ out,
      update_loss_prem_at_least_one
        ⟨[("paid_loss", .numeric [1 / 2]), ("case_resv", .numeric [1]),
          ("paid_dcce", .numeric [1 / 4]), ("cum_olep", .numeric [3 / 4])]⟩
        ⟨[]⟩ 2021 2020 ⟨"A"⟩ = some out
      ∧ out.numeric "paid_loss" = some [1 / 2]
      ∧ out.numeric "paid_dcce" = some [1 / 4]
      ∧ out.numeric "cum_olep" = some [3 / 4]
      ∧ (0 : ℚ) ≤ 1 / 2 ∧ (0 : ℚ) ≤ 1 / 4 ∧ (0 : ℚ) ≤ 3 / 4 ∧ (0 : ℚ) ≤ 1
      ∧ ¬ ((1 : ℚ) ≤ 1 / 2) ∧ ¬ ((1 : ℚ) ≤ 1 / 4) ∧ ¬ ((1 : ℚ) ≤ 3 / 4) := by
  obtain ⟨out, hout, h1, h2, h3, -⟩ :=
    update_loss_prem_eval
      ⟨[("paid_loss", .numeric [1 / 2]), ("case_resv", .numeric [1]),
        ("paid_dcce", .numeric [1 / 4]), ("cum_olep", .numeric [3 / 4])]⟩
      ⟨[]⟩ 2021 2020 ⟨"A"⟩ [1 / 2] [1] [1 / 4] [3 / 4] rfl rfl rfl rfl
  refine ⟨out, hout, ?_, ?_, ?_, by norm_num, by norm_num, by norm_num, by norm_num,
    by norm_num, by norm_num, by norm_num⟩
  · rw [h1]; norm_num
  · rw [h2]; norm_num
  · rw [h3]; norm_num

/-- Claim C8, amended: in every row the `paid_loss`, `paid_dcce` and `cum_olep`
that `update_loss_prem_at_least_one` produces are at least `1` exactly when the
input value is `0` or at least `1`; in particular they are at least `1` for a
record set whose values are non-negative integers; and an input value strictly
between `0` and `1` is returned unchanged. -/
theorem C8_at_least_one (df all_lines_olep : DataFrame) (year first_ay : Int)
    (params : Params) (pl cr pd co : NumericVector)
    (hpl : df.numeric "paid_loss" = some pl) (hcr : df.numeric "case_resv" = some cr)
    (hpd : df.numeric "paid_dcce" = some pd) (hco : df.numeric "cum_olep" = some co) :
    ∃ out pl_out pd_out co_out,
      update_loss_prem_at_least_one df all_lines_olep year first_ay params = some out
      ∧ out.numeric "paid_loss" = some pl_out
      ∧ out.numeric "paid_dcce" = some pd_out
      ∧ out.numeric "cum_olep" = some co_out
      ∧ (∀ (i : Nat) (x : ℚ), pl[i]? = some x →
          ∃ y, pl_out[i]? = some y ∧ (1 ≤ y ↔ (x = 0 ∨ 1 ≤ x)) ∧ ((∃ n : ℕ, x = n) → 1 ≤ y)
            ∧ (0 < x → x < 1 → y = x))
      ∧ (∀ (i : Nat) (x : ℚ), pd[i]? = some x →
          ∃ y, pd_out[i]? = some y ∧ (1 ≤ y ↔ (x = 0 ∨ 1 ≤ x)) ∧ ((∃ n : ℕ, x = n) → 1 ≤ y)
            ∧ (0 < x → x < 1 → y = x))
      ∧ (∀ (i : Nat) (x : ℚ), co[i]? = some x →
          ∃ y, co_out[i]? = some y ∧ (1 ≤ y ↔ (x = 0 ∨ 1 ≤ x)) ∧ ((∃ n : ℕ, x = n) → 1 ≤ y)
            ∧ (0 < x → x < 1 → y = x)) := by
  obtain ⟨out, hout, h1, h2, h3, -⟩ :=
    update_loss_prem_eval df all_lines_olep year first_ay params pl cr pd co hpl hcr hpd hco
  refine ⟨out, _, _, _, hout, h1, h2, h3, ?_, ?_, ?_⟩ <;>
  · intro i x hx
    refine ⟨if x = 0 then 1 else x, by simp [List.getElem?_map, hx], floor_ge_one_iff x,
      floor_ge_one_of_nat x, ?_⟩
    intro hpos _
    rw [if_neg (ne_of_gt hpos)]

/-- Witness for C8 (amended) on a record set with zeros, integers from `1` on and
values strictly between `0` and `1`. -/
theorem C8_at_least_one_witness :
    ∃ out pl_out pd_out co_out,
      update_loss_prem_at_least_one records_c ⟨[]⟩ 2021 2020 ⟨"A"⟩ = some out
      ∧ out.numeric "paid_loss" = some pl_out
      ∧ out.numeric "paid_dcce" = some pd_out
      ∧ out.numeric "cum_olep" = some co_out
      ∧ (∀ (i : Nat) (x : ℚ), [(0 : ℚ), 1 / 2, 5][i]? = some x →
          ∃ y, pl_out[i]? = some y ∧ (1 ≤ y ↔ (x = 0 ∨ 1 ≤ x)) ∧ ((∃ n : ℕ, x = n) → 1 ≤ y)
            ∧ (0 < x → x < 1 → y = x))
      ∧ (∀ (i : Nat) (x : ℚ), [(1 / 4 : ℚ), 0, 3][i]? = some x →
          ∃ y, pd_out[i]? = some y ∧ (1 ≤ y ↔ (x = 0 ∨ 1 ≤ x)) ∧ ((∃ n : ℕ, x = n) → 1 ≤ y)
            ∧ (0 < x → x < 1 → y = x))
      ∧ (∀ (i : Nat) (x : ℚ), [(7 : ℚ), 3 / 4, 0][i]? = some x →
          ∃ y, co_out[i]? = some y ∧ (1 ≤ y ↔ (x = 0 ∨ 1 ≤ x)) ∧ ((∃ n : ℕ, x = n) → 1 ≤ y)
            ∧ (0 < x → x < 1 → y = x)) :=
  C8_at_least_one records_c ⟨[]⟩ 2021 2020 ⟨"A"⟩ [0, 1 / 2, 5] [1, 2, 0] [1 / 4, 0, 3]
    [7, 3 / 4, 0] rfl rfl rfl rfl

/-! ## Claims on `build_cur_year_df` -/

theorem int_wrap_of_range (z : Int) (h1 : -2147483648 ≤ z) (h2 : z ≤ 2147483647) :
    int_wrap z = z := by
  unfold int_wrap
  omega

theorem int_add_sub_one (a b : Int) (h1 : -2147483648 ≤ a - b + 1)
    (h2 : a - b + 1 ≤ 2147483647) : int_add (int_sub a b) 1 = a - b + 1 := by
  unfold int_add int_sub int_wrap
  omega

theorem build_cur_year_df_eval (verbs : Verbs) (df all_lines_olep : DataFrame)
    (year first_ay : Int) (params : Params) (w q : NumericVector) (x : ℚ)
    (hw : df.numeric "w" = some w) (hq : df.numeric "quarter" = some q)
    (hx : ((filter all_lines_olep
        [("lob", .str params.lob), ("ay", .num year), ("dev_month", .num 12)]).numeric
          "cum_olep").bind as_double = some x) :
    ∃ r, build_cur_year_df verbs df all_lines_olep year first_ay params = some r
      ∧ r.w = w ∧ r.ay = year ∧ r.cur_ay = [x]
      ∧ r.cur_d = vec_add (scalar_times 12 (scalar_minus (int_add (int_sub year first_ay) 1) w))
          (times_scalar q 3)
      ∧ r.d = div_scalar r.cur_d 3 := by
  cases hf : (filter all_lines_olep
      [("lob", .str params.lob), ("ay", .num year), ("dev_month", .num 12)]).numeric
        "cum_olep" with
  | none => simp [hf] at hx
  | some v =>
    rw [hf] at hx
    simp only [Option.some_bind] at hx
    simp [build_cur_year_df, hw, hq, hf, hx]

theorem build_cur_year_df_none_iff (verbs : Verbs) (df all_lines_olep : DataFrame)
    (year first_ay : Int) (params : Params) :
    build_cur_year_df verbs df all_lines_olep year first_ay params = none
      ↔ (df.numeric "w" = none ∨ df.numeric "quarter" = none
        ∨ ((filter all_lines_olep
            [("lob", .str params.lob), ("ay", .num year), ("dev_month", .num 12)]).numeric
              "cum_olep").bind as_double = none) := by
  cases hw : df.numeric "w" with
  | none => simp [build_cur_year_df, hw]
  | some w =>
    cases hq : df.numeric "quarter" with
    | none => simp [build_cur_year_df, hw, hq]
    | some q =>
      cases hf : (filter all_lines_olep
          [("lob", .str params.lob), ("ay", .num year), ("dev_month", .num 12)]).numeric
            "cum_olep" with
      | none => simp [build_cur_year_df, hw, hq, hf]
      | some v =>
        cases hx : as_double v with
        | none => simp [build_cur_year_df, hw, hq, hf, hx]
        | some x => simp [build_cur_year_df, hw, hq, hf, hx]

theorem cur_d_row (k : Int) (w q : NumericVector) (i : Nat) (wi qi : ℚ)
    (hw : w[i]? = some wi) (hq : q[i]? = some qi) :
    (vec_add (scalar_times 12 (scalar_minus k w)) (times_scalar q 3))[i]?
      = some (12 * ((k : ℚ) - wi) + qi * 3) := by
  simp [vec_add, scalar_times, scalar_minus, times_scalar, List.getElem?_zipWith,
    List.getElem?_map, hw, hq]

/-- Counterexample to C9 as stated: for `w=[1]`, `quarter=[4]`, `year=2021` and
`first_ay=2020` the call returns `cur_d=[24]`, whatever the data-frame verbs do,
while `3 * (year - first_ay + 1 - w) + 3 * quarter` is `15`. -/
theorem C9_counterexample :
    (∀ verbs : Verbs, ∃ r,
      build_cur_year_df verbs
        ⟨[("w", .numeric [1]), ("quarter", .numeric [4])]⟩
        ⟨[("lob", .character ["A", "B"]), ("ay", .numeric [2021, 2021]),
          ("dev_month", .numeric [12, 12]), ("cum_olep", .numeric [100, 300])]⟩
        2021 2020 ⟨"A"⟩ = some r
      ∧ r.cur_d = [24])
    ∧ 3 * (((2021 : Int) : ℚ) - ((2020 : Int) : ℚ) + 1 - 1) + 3 * 4 = 15
    ∧ (24 : ℚ) ≠ 15 := by
  refine ⟨fun verbs => ?_, by norm_num, by norm_num⟩
  obtain ⟨r, hr, -, -, -, hd, -⟩ :=
    build_cur_year_df_eval verbs
      ⟨[("w", .numeric [1]), ("quarter", .numeric [4])]⟩
      ⟨[("lob", .character ["A", "B"]), ("ay", .numeric [2021, 2021]),
        ("dev_month", .numeric [12, 12]), ("cum_olep", .numeric [100, 300])]⟩
      2021 2020 ⟨"A"⟩ [1] [4] 100 rfl rfl (by decide)
  refine ⟨r, hr, ?_⟩
  rw [hd, int_add_sub_one 2021 2020 (by norm_num) (by norm_num)]
  simp [vec_add, scalar_times, scalar_minus, times_scalar]
  norm_num

/-- Claim C9, amended: for every row, `build_cur_year_df` computes `cur_d` as
`12 * (year - first_ay + 1 - w) + 3 * quarter` (the `int` expression
`year - first_ay + 1` being representable), one value per row of the input. -/
theorem C9_cur_d_formula (verbs : Verbs) (df all_lines_olep : DataFrame)
    (year first_ay : Int) (params : Params) (w q : NumericVector) (x : ℚ)
    (hwf : df.WellFormed)
    (hw : df.numeric "w" = some w) (hq : df.numeric "quarter" = some q)
    (hx : ((filter all_lines_olep
        [("lob", .str params.lob), ("ay", .num year), ("dev_month", .num 12)]).numeric
          "cum_olep").bind as_double = some x)
    (h1 : -2147483648 ≤ year - first_ay + 1) (h2 : year - first_ay + 1 ≤ 2147483647) :
    ∃ r, build_cur_year_df verbs df all_lines_olep year first_ay params = some r
      ∧ r.cur_d.length = w.length
      ∧ (∀ (i : Nat) (wi qi : ℚ), w[i]? = some wi → q[i]? = some qi →
          r.cur_d[i]? = some (12 * (((year - first_ay + 1 : Int) : ℚ) - wi) + 3 * qi)) := by
  obtain ⟨r, hr, -, -, -, hd, -⟩ :=
    build_cur_year_df_eval verbs df all_lines_olep year first_ay params w q x hw hq hx
  have hl : q.length = w.length := by
    rw [numeric_length df hwf _ _ hq, numeric_length df hwf _ _ hw]
  refine ⟨r, hr, ?_, ?_⟩
  · rw [hd]
    simp [vec_add, scalar_times, scalar_minus, times_scalar, hl]
  · intro i wi qi hwi hqi
    rw [hd, cur_d_row _ w q i wi qi hwi hqi, int_add_sub_one year first_ay h1 h2, mul_comm qi 3]

/-- Witness for C9 (amended) on a two-row record set. -/
theorem C9_cur_d_formula_witness :
    (⟨[("w", .numeric [1, 3]), ("quarter", .numeric [4, 2])]⟩ : DataFrame).WellFormed
    ∧ ∀ verbs : Verbs, ∃ r,
      build_cur_year_df verbs
        ⟨[("w", .numeric [1, 3]), ("quarter", .numeric [4, 2])]⟩
        ⟨[("lob", .character ["A", "B"]), ("ay", .numeric [2021, 2021]),
          ("dev_month", .numeric [12, 12]), ("cum_olep", .numeric [100, 300])]⟩
        2021 2020 ⟨"A"⟩ = some r
      ∧ r.cur_d.length = [(1 : ℚ), 3].length
      ∧ (∀ (i : Nat) (wi qi : ℚ), [(1 : ℚ), 3][i]? = some wi → [(4 : ℚ), 2][i]? = some qi →
          r.cur_d[i]? = some (12 * (((2021 - 2020 + 1 : Int) : ℚ) - wi) + 3 * qi)) :=
  ⟨by decide, fun verbs =>
    C9_cur_d_formula verbs
      ⟨[("w", .numeric [1, 3]), ("quarter", .numeric [4, 2])]⟩
      ⟨[("lob", .character ["A", "B"]), ("ay", .numeric [2021, 2021]),
        ("dev_month", .numeric [12, 12]), ("cum_olep", .numeric [100, 300])]⟩
      2021 2020 ⟨"A"⟩ [1, 3] [4, 2] 100 (by decide) rfl rfl (by decide) (by decide)
      (by decide)⟩

/-- Counterexample to C10 as stated: for `w=[3]`, `quarter=[0]`, `year=2020` and
`first_ay=2020` the call succeeds with `cur_d=[-24]` and `d=[-8]`; and for
`w=[1]`, `quarter=[1]` it fails on a premium table without a row for the year,
although with such a row it returns the non-negative `cur_d=[3]`. -/
theorem C10_counterexample :
    (∀ verbs : Verbs, ∃ r,
      build_cur_year_df verbs
        ⟨[("w", .numeric [3]), ("quarter", .numeric [0])]⟩
        ⟨[("lob", .character ["A"]), ("ay", .numeric [2020]),
          ("dev_month", .numeric [12]), ("cum_olep", .numeric [100])]⟩
        2020 2020 ⟨"A"⟩ = some r
      ∧ r.cur_d = [-24] ∧ r.d = [-8])
    ∧ (∀ verbs : Verbs,
      build_cur_year_df verbs
        ⟨[("w", .numeric [1]), ("quarter", .numeric [1])]⟩
        ⟨[("lob", .character ["A"]), ("ay", .numeric [2019]),
          ("dev_month", .numeric [12]), ("cum_olep", .numeric [100])]⟩
        2020 2020 ⟨"A"⟩ = none)
    ∧ (∀ verbs : Verbs, ∃ r,
      build_cur_year_df verbs
        ⟨[("w", .numeric [1]), ("quarter", .numeric [1])]⟩
        ⟨[("lob", .character ["A"]), ("ay", .numeric [2020]),
          ("dev_month", .numeric [12]), ("cum_olep", .numeric [100])]⟩
        2020 2020 ⟨"A"⟩ = some r
      ∧ r.cur_d = [3]) := by
  refine ⟨fun verbs => ?_, fun verbs => ?_, fun verbs => ?_⟩
  · obtain ⟨r, hr, -, -, -, hd, hdd⟩ :=
      build_cur_year_df_eval verbs
        ⟨[("w", .numeric [3]), ("quarter", .numeric [0])]⟩
        ⟨[("lob", .character ["A"]), ("ay", .numeric [2020]),
          ("dev_month", .numeric [12]), ("cum_olep", .numeric [100])]⟩
        2020 2020 ⟨"A"⟩ [3] [0] 100 rfl rfl (by decide)
    have hc : r.cur_d = [-24] := by
      rw [hd, int_add_sub_one 2020 2020 (by norm_num) (by norm_num)]
      simp [vec_add, scalar_times, scalar_minus, times_scalar]
      norm_num
    refine ⟨r, hr, hc, ?_⟩
    rw [hdd, hc]
    simp [div_scalar]
    norm_num
  · rw [build_cur_year_df_none_iff]
    right; right
    decide
  · obtain ⟨r, hr, -, -, -, hd, -⟩ :=
      build_cur_year_df_eval verbs
        ⟨[("w", .numeric [1]), ("quarter", .numeric [1])]⟩
        ⟨[("lob", .character ["A"]), ("ay", .numeric [2020]),
          ("dev_month", .numeric [12]), ("cum_olep", .numeric [100])]⟩
        2020 2020 ⟨"A"⟩ [1] [1] 100 rfl rfl (by decide)
    refine ⟨r, hr, ?_⟩
    rw [hd, int_add_sub_one 2020 2020 (by norm_num) (by norm_num)]
    simp [vec_add, scalar_times, scalar_minus, times_scalar]

/-- Claim C10, amended: `build_cur_year_df` has no test of the sign of `cur_d`.
When it returns for one `first_ay` it returns for every `first_ay`; and in what
it returns `d` has one value per value of `cur_d`, `d[i] = cur_d[i] / 3`, and
`d[i]` is non-negative exactly when `cur_d[i]` is. -/
theorem C10_no_sign_test (verbs : Verbs) (df all_lines_olep : DataFrame)
    (year first_ay : Int) (params : Params) (r : CurYearFrame)
    (hr : build_cur_year_df verbs df all_lines_olep year first_ay params = some r) :
    (∀ other_ay : Int, ∃ s,
      build_cur_year_df verbs df all_lines_olep year other_ay params = some s)
    ∧ r.d.length = r.cur_d.length
    ∧ ∀ (i : Nat) (c : ℚ), r.cur_d[i]? = some c →
        r.d[i]? = some (c / 3) ∧ (0 ≤ c / 3 ↔ 0 ≤ c) := by
  cases hw : df.numeric "w" with
  | none => simp [build_cur_year_df, hw] at hr
  | some w =>
    cases hq : df.numeric "quarter" with
    | none => simp [build_cur_year_df, hw, hq] at hr
    | some q =>
      cases hx : ((filter all_lines_olep
          [("lob", .str params.lob), ("ay", .num year), ("dev_month", .num 12)]).numeric
            "cum_olep").bind as_double with
      | none =>
        have := (build_cur_year_df_none_iff verbs df all_lines_olep year first_ay
          params).mpr (Or.inr (Or.inr hx))
        rw [this] at hr
        cases hr
      | some x =>
        have hd : r.d = div_scalar r.cur_d 3 := by
          obtain ⟨r1, hr1, -, -, -, -, hdd⟩ :=
            build_cur_year_df_eval verbs df all_lines_olep year first_ay params w q x hw hq hx
          rw [hr1] at hr
          cases hr
          exact hdd
        refine ⟨fun other_ay => ?_, by rw [hd]; simp [div_scalar], ?_⟩
        · obtain ⟨s, hs, -⟩ :=
            build_cur_year_df_eval verbs df all_lines_olep year other_ay params w q x hw hq hx
          exact ⟨s, hs⟩
        · intro i c hc
          refine ⟨by rw [hd]; simp [div_scalar, List.getElem?_map, hc], ?_⟩
          constructor
          · intro h
            have : c = c / 3 * 3 := by ring
            rw [this]
            positivity
          · intro h
            positivity

/-- Witness for C10 (amended): for `w=[3]`, `quarter=[0]`, `year=2020` and
`first_ay=2020` the call returns the negative `cur_d=[-24]`, whatever the
data-frame verbs do. -/
theorem C10_no_sign_test_witness :
    (⟨[("w", .numeric [3]), ("quarter", .numeric [0])]⟩ : DataFrame).numeric "w" = some [3]
    ∧ ∀ verbs : Verbs, ∃ r,
      build_cur_year_df verbs
        ⟨[("w", .numeric [3]), ("quarter", .numeric [0])]⟩
        ⟨[("lob", .character ["A"]), ("ay", .numeric [2020]),
          ("dev_month", .numeric [12]), ("cum_olep", .numeric [100])]⟩
        2020 2020 ⟨"A"⟩ = some r
      ∧ r.cur_d = [-24]
      ∧ (∀ other_ay : Int, ∃ s,
        build_cur_year_df verbs
          ⟨[("w", .numeric [3]), ("quarter", .numeric [0])]⟩
          ⟨[("lob", .character ["A"]), ("ay", .numeric [2020]),
            ("dev_month", .numeric [12]), ("cum_olep", .numeric [100])]⟩
          2020 other_ay ⟨"A"⟩ = some s)
      ∧ r.d.length = r.cur_d.length
      ∧ ∀ (i : Nat) (c : ℚ), r.cur_d[i]? = some c →
          r.d[i]? = some (c / 3) ∧ (0 ≤ c / 3 ↔ 0 ≤ c) := by
  refine ⟨rfl, fun verbs => ?_⟩
  obtain ⟨r, hr, -, -, -, hd, -⟩ :=
    build_cur_year_df_eval verbs
      ⟨[("w", .numeric [3]), ("quarter", .numeric [0])]⟩
      ⟨[("lob", .character ["A"]), ("ay", .numeric [2020]),
        ("dev_month", .numeric [12]), ("cum_olep", .numeric [100])]⟩
      2020 2020 ⟨"A"⟩ [3] [0] 100 rfl rfl (by decide)
  have hc : r.cur_d = [-24] := by
    rw [hd, int_add_sub_one 2020 2020 (by norm_num) (by norm_num)]
    simp [vec_add, scalar_times, scalar_minus, times_scalar]
    norm_num
  exact ⟨r, hr, hc,
    C10_no_sign_test verbs
      ⟨[("w", .numeric [3]), ("quarter", .numeric [0])]⟩
      ⟨[("lob", .character ["A"]), ("ay", .numeric [2020]),
        ("dev_month", .numeric [12]), ("cum_olep", .numeric [100])]⟩
      2020 2020 ⟨"A"⟩ r hr⟩

/-! ## The premium lookup of `build_cur_year_df` -/

theorem lookup_map_take_rows (cols : List (String × Column)) (keep : List Nat) (name : String) :
    DataFrame.lookup (cols.map fun p => (p.1, p.2.take_rows keep)) name
      = (DataFrame.lookup cols name).map (fun c => c.take_rows keep) := by
  induction cols with
  | nil => simp [DataFrame.lookup]
  | cons p rest ih =>
    by_cases h : p.1 = name
    · simp [DataFrame.lookup, h]
    · simp [DataFrame.lookup, h, ih]

theorem filter_numeric (df : DataFrame) (conds : List (String × Value)) (name : String)
    (v : NumericVector) (h : df.numeric name = some v) :
    (filter df conds).numeric name
      = some (((List.range df.nrow).filter fun i =>
          conds.all fun c => decide (df.cell c.1 i = some c.2)).filterMap fun i => v[i]?) := by
  unfold DataFrame.numeric at h
  split at h
  · rename_i w hw
    simp only [Option.some.injEq] at h
    subst h
    simp only [DataFrame.numeric, filter]
    rw [lookup_map_take_rows, hw]
    simp [Column.take_rows]
  · simp at h

theorem cell_lt_nrow (df : DataFrame) (hwf : df.WellFormed) (name : String) (i : Nat)
    (x : Value) (h : df.cell name i = some x) : i < df.nrow := by
  unfold DataFrame.cell at h
  split at h
  · rename_i c hc
    obtain ⟨p, hp, hpc⟩ := lookup_mem _ _ _ hc
    have hl := hwf p hp
    rw [hpc] at hl
    rw [← hl]
    cases c with
    | numeric v =>
      simp only [Column.cell, Option.map_eq_some'] at h
      obtain ⟨a, ha, -⟩ := h
      rw [List.get?_eq_some] at ha
      obtain ⟨hlt, -⟩ := ha
      simpa [Column.length] using hlt
    | character v =>
      simp only [Column.cell, Option.map_eq_some'] at h
      obtain ⟨a, ha, -⟩ := h
      rw [List.get?_eq_some] at ha
      obtain ⟨hlt, -⟩ := ha
      simpa [Column.length] using hlt
  · simp at h

theorem premium_keep_mem (olep : DataFrame) (hwf : olep.WellFormed) (year : Int)
    (params : Params) (i : Nat) :
    i ∈ ((List.range olep.nrow).filter fun i =>
        [("lob", Value.str params.lob), ("ay", Value.num year), ("dev_month", Value.num 12)].all
          fun c => decide (olep.cell c.1 i = some c.2))
      ↔ premium_row olep year params i := by
  simp only [List.mem_filter, List.mem_range, List.all_cons, List.all_nil, Bool.and_true,
    Bool.and_eq_true, decide_eq_true_eq, premium_row]
  constructor
  · rintro ⟨-, h⟩
    exact h
  · intro h
    exact ⟨cell_lt_nrow olep hwf _ _ _ h.1, h⟩

theorem as_double_filterMap (keep : List Nat) (co : NumericVector)
    (hk : ∀ i ∈ keep, i < co.length) (x : ℚ) :
    as_double (keep.filterMap fun i => co[i]?) = some x
      ↔ ∃ i, keep = [i] ∧ co[i]? = some x := by
  match keep, hk with
  | [], _ => simp [as_double]
  | [i], hk =>
    have hi : i < co.length := hk i (by simp)
    simp [as_double, List.getElem?_eq_getElem hi]
  | i :: j :: rest, hk =>
    have hi : i < co.length := hk i (by simp)
    have hj : j < co.length := hk j (by simp)
    simp [as_double, List.getElem?_eq_getElem hi, List.getElem?_eq_getElem hj]

theorem singleton_of_unique (l : List Nat) (hnd : l.Nodup) (i : Nat) (hi : i ∈ l)
    (hu : ∀ j ∈ l, j = i) : l = [i] := by
  match l, hnd, hi, hu with
  | [a], _, _, hu => simp [hu a (by simp)]
  | a :: b :: rest, hnd, _, hu =>
    have ha := hu a (by simp)
    have hb := hu b (by simp)
    subst ha
    subst hb
    simp at hnd

theorem premium_lookup_some (olep : DataFrame) (hwf : olep.WellFormed) (year : Int)
    (params : Params) (co : NumericVector) (hco : olep.numeric "cum_olep" = some co) (x : ℚ) :
    ((filter olep
        [("lob", .str params.lob), ("ay", .num year), ("dev_month", .num 12)]).numeric
          "cum_olep").bind as_double = some x
      ↔ ∃ i, premium_row olep year params i
          ∧ (∀ j, premium_row olep year params j → j = i) ∧ co[i]? = some x := by
  have hlen := numeric_length olep hwf _ _ hco
  rw [filter_numeric olep _ _ co hco, Option.some_bind, as_double_filterMap]
  · constructor
    · rintro ⟨i, hk, hx⟩
      have hmem : ∀ j, premium_row olep year params j ↔ j ∈ [i] := by
        intro j
        rw [← hk]
        exact (premium_keep_mem olep hwf year params j).symm
      exact ⟨i, (hmem i).mpr (by simp), fun j hj => by simpa using (hmem j).mp hj, hx⟩
    · rintro ⟨i, hi, hu, hx⟩
      refine ⟨i, singleton_of_unique _ ((List.nodup_range _).filter _) i
        ((premium_keep_mem olep hwf year params i).mpr hi) ?_, hx⟩
      intro j hj
      exact hu j ((premium_keep_mem olep hwf year params j).mp hj)
  · intro i hi
    rw [hlen]
    exact List.mem_range.mp (List.mem_filter.mp hi).1

theorem isDigit_iff (c : Char) : c.isDigit = true ↔ 48 ≤ c.toNat ∧ c.toNat ≤ 57 := by
  simp [Char.isDigit, Char.toNat, UInt32.le_def, Fin.le_def]
  rfl

theorem digitChar_digit (k : Nat) (hk : k < 10) :
    (Nat.digitChar k).isDigit = true ∧ digit_value (Nat.digitChar k) = k := by
  interval_cases k <;> decide

theorem toDigitsCore_spec (fuel : Nat) :
    ∀ (n : Nat) (ds : List Char), n < fuel →
      ∃ l, Nat.toDigitsCore 10 fuel n ds = l ++ ds ∧ l ≠ []
        ∧ (∀ c ∈ l, c.isDigit = true)
        ∧ l.foldl (fun acc c => acc * 10 + digit_value c) 0 = n := by
  induction fuel with
  | zero => intro n ds h; omega
  | succ fuel ih =>
    intro n ds h
    have hd := digitChar_digit (n % 10) (Nat.mod_lt _ (by norm_num))
    by_cases h0 : n / 10 = 0
    · refine ⟨[Nat.digitChar (n % 10)], by simp [Nat.toDigitsCore, h0], by simp, ?_, ?_⟩
      · intro c hc
        simp only [List.mem_singleton] at hc
        rw [hc]
        exact hd.1
      · simp only [List.foldl, zero_mul, zero_add, hd.2]
        omega
    · obtain ⟨l, hl, -, hdig, hval⟩ := ih (n / 10) (Nat.digitChar (n % 10) :: ds) (by omega)
      refine ⟨l ++ [Nat.digitChar (n % 10)], by simp [Nat.toDigitsCore, h0, hl], by simp, ?_, ?_⟩
      · intro c hc
        rcases List.mem_append.mp hc with h1 | h1
        · exact hdig c h1
        · simp only [List.mem_singleton] at h1
          rw [h1]
          exact hd.1
      · rw [List.foldl_append, hval]
        simp only [List.foldl, hd.2]
        omega

theorem toDigits_spec (n : Nat) :
    Nat.toDigits 10 n ≠ [] ∧ (∀ c ∈ Nat.toDigits 10 n, c.isDigit = true)
      ∧ (Nat.toDigits 10 n).foldl (fun acc c => acc * 10 + digit_value c) 0 = n := by
  obtain ⟨l, hl, hne, hdig, hval⟩ := toDigitsCore_spec (n + 1) n [] (by omega)
  simp only [List.append_nil] at hl
  unfold Nat.toDigits
  rw [hl]
  exact ⟨hne, hdig, hval⟩

theorem digit_not_special (c : Char) (hc : c.isDigit = true) :
    isspace c = false ∧ c ≠ '-' ∧ c ≠ '+' ∧ c ≠ '[' ∧ c ≠ ']' := by
  rw [isDigit_iff] at hc
  refine ⟨?_, ?_, ?_, ?_, ?_⟩
  · simp only [isspace, Bool.or_eq_false_iff, decide_eq_false_iff_not, Bool.and_eq_false_iff]
    omega
  all_goals
    intro h
    rw [h] at hc
    revert hc
    decide

theorem stoi_digits (l : List Char) (hne : l ≠ []) (hd : ∀ c ∈ l, c.isDigit = true) :
    stoi l
      = if l.foldl (fun acc c => acc * 10 + digit_value c) 0 ≤ 2147483647
        then some ((l.foldl (fun acc c => acc * 10 + digit_value c) 0 : Nat) : Int)
        else none := by
  match l, hne, hd with
  | c :: t, _, hd =>
    obtain ⟨h1, h2, h3, -, -⟩ := digit_not_special c (hd c (by simp))
    have htake : List.takeWhile Char.isDigit (c :: t) = c :: t :=
      List.takeWhile_eq_self_iff.mpr hd
    have hdrop : List.dropWhile isspace (c :: t) = c :: t := by
      simp [List.dropWhile_cons, h1]
    have hstrip : strip_sign (c :: t) = c :: t := by
      unfold strip_sign
      split
      · rename_i heq
        injection heq with ha hb
        exact absurd ha h2
      · rename_i heq
        injection heq with ha hb
        exact absurd ha h3
      · rfl
    have hhead : ¬ ((c :: t).head? = some '-') := by
      simp [h2]
    simp only [stoi, hdrop, hstrip, htake, hhead, if_false]
    have hnn : (0 : Int) ≤ ((List.foldl (fun acc c => acc * 10 + digit_value c) 0 (c :: t) : Nat) : Int) :=
      Int.ofNat_nonneg _
    by_cases hle : List.foldl (fun acc c => acc * 10 + digit_value c) 0 (c :: t) ≤ 2147483647
    · have : ((List.foldl (fun acc c => acc * 10 + digit_value c) 0 (c :: t) : Nat) : Int)
          ≤ 2147483647 := by exact_mod_cast hle
      simp only [hle, if_true]
      rw [if_neg (by simp), if_pos ⟨by omega, this⟩]
    · have : ¬ ((List.foldl (fun acc c => acc * 10 + digit_value c) 0 (c :: t) : Nat) : Int)
          ≤ 2147483647 := by
        intro h
        exact hle (by exact_mod_cast h)
      simp only [hle, if_false]
      rw [if_neg (by simp), if_neg (fun h => this h.2)]

theorem stoi_toDigits (n : Nat) :
    stoi (Nat.toDigits 10 n) = if n ≤ 2147483647 then some (n : Int) else none := by
  obtain ⟨hne, hdig, hval⟩ := toDigits_spec n
  rw [stoi_digits _ hne hdig, hval]

/-! ## Evaluation of `extract_integer_in_brackets` -/

theorem find_first (pre rest : List Char) (c : Char) (h : c ∉ pre) :
    find (pre ++ c :: rest) c = pre.length := by
  have hi : List.indexOf c (pre ++ c :: rest) = pre.length := by
    rw [List.indexOf_append_of_not_mem h, List.indexOf_cons_self, Nat.add_zero]
  unfold find
  rw [hi, if_pos (by simp)]

theorem find_absent (x : List Char) (c : Char) (h : c ∉ x) : find x c = npos := by
  unfold find
  rw [List.indexOf_of_not_mem h, if_neg (lt_irrefl _)]

theorem int_wrap_npos : int_wrap npos = -1 := by
  unfold int_wrap npos
  omega

theorem int_wrap_nat (k : Nat) (h : k ≤ 2147483647) : int_wrap k = k :=
  int_wrap_of_range k (by omega) (by omega)

theorem extract_eq (x : String) :
    extract_integer_in_brackets x
      = (substr x.data (to_size_t (int_add (int_wrap (find x.data '[')) 1))
          (to_size_t (int_sub (int_sub (int_wrap (find x.data ']')) (int_wrap (find x.data '[')))
            1))).bind stoi := by
  simp only [extract_integer_in_brackets, bind_pure, Option.bind_eq_bind]

theorem to_size_t_of_nonneg (z : Int) (h0 : 0 ≤ z) (h1 : z < 18446744073709551616) :
    to_size_t z = z.toNat := by
  unfold to_size_t
  rw [Int.emod_eq_of_lt h0 h1]

theorem to_size_t_of_neg (z : Int) (h0 : z < 0) (h1 : -18446744073709551616 ≤ z) :
    to_size_t z = (z + 18446744073709551616).toNat := by
  unfold to_size_t
  rw [← Int.add_emod_self, Int.emod_eq_of_lt (by linarith) (by linarith)]

theorem to_size_t_nat (k : Nat) (h : k ≤ 2147483647) : to_size_t (k : Int) = k := by
  rw [to_size_t_of_nonneg _ (by omega) (by omega)]
  simp

/-- Shape 1: a first `[` followed later by the first `]`. -/
theorem extract_between (x : String) (pre mid post : List Char)
    (hx : x.data = pre ++ '[' :: (mid ++ ']' :: post))
    (h1 : '[' ∉ pre) (h2 : ']' ∉ pre) (h3 : ']' ∉ mid) (hlen : x.data.length ≤ 2147483647) :
    extract_integer_in_brackets x = stoi mid := by
  have hl : pre.length + mid.length + post.length + 2 ≤ 2147483647 := by
    rw [hx] at hlen
    simp only [List.length_append, List.length_cons] at hlen
    omega
  have hf1 : find x.data '[' = pre.length := by
    rw [hx]
    exact find_first pre _ '[' h1
  have hf2 : find x.data ']' = pre.length + 1 + mid.length := by
    have : x.data = (pre ++ '[' :: mid) ++ ']' :: post := by
      rw [hx]; simp
    rw [this, find_first (pre ++ '[' :: mid) post ']' (by simp [h2, h3])]
    simp
    omega
  rw [extract_eq, hf1, hf2]
  have e1 : int_wrap ((pre.length : Nat) : Int) = pre.length := int_wrap_nat _ (by omega)
  have e2 : int_wrap ((pre.length + 1 + mid.length : Nat) : Int) = (pre.length + 1 + mid.length : Nat) :=
    int_wrap_nat _ (by omega)
  rw [e1, e2]
  have e3 : int_add (pre.length : Int) 1 = ((pre.length + 1 : Nat) : Int) := by
    unfold int_add
    rw [int_wrap_of_range _ (by omega) (by omega)]
    push_cast
    ring
  have e4 : int_sub (int_sub ((pre.length + 1 + mid.length : Nat) : Int) pre.length) 1
      = (mid.length : Int) := by
    unfold int_sub int_wrap
    push_cast
    omega
  rw [e3, e4]
  have s1 : to_size_t ((pre.length + 1 : Nat) : Int) = pre.length + 1 :=
    to_size_t_nat _ (by omega)
  have s2 : to_size_t (mid.length : Int) = mid.length :=
    to_size_t_nat _ (by omega)
  rw [s1, s2, hx]
  have hsub : substr (pre ++ '[' :: (mid ++ ']' :: post)) (pre.length + 1) mid.length
      = some mid := by
    unfold substr
    rw [if_neg (by simp)]
    have : List.drop (pre.length + 1) (pre ++ '[' :: (mid ++ ']' :: post)) = mid ++ ']' :: post := by
      rw [show pre ++ '[' :: (mid ++ ']' :: post) = (pre ++ ['[']) ++ (mid ++ ']' :: post) by simp]
      exact List.drop_left' (by simp)
    rw [this, List.take_left']
    rfl
  rw [hsub, Option.some_bind]

theorem len_when_reversed (p1 p2 : Int) (h : -1 ≤ p2) (hlt : p2 < p1) (hp : p1 ≤ 2147483646)
    (n : Nat) (hn : n ≤ 2147483647) : n ≤ to_size_t (int_sub (int_sub p2 p1) 1) := by
  have e1 : int_sub p2 p1 = p2 - p1 := int_wrap_of_range _ (by omega) (by omega)
  have e2 : int_sub (p2 - p1) 1 = p2 - p1 - 1 := int_wrap_of_range _ (by omega) (by omega)
  rw [e1, e2, to_size_t_of_neg _ (by omega) (by omega)]
  omega

theorem find_before (pre rest : List Char) (c : Char) (hc : c ≠ '[') (h : c ∉ rest) :
    find (pre ++ '[' :: rest) c = npos ∨ find (pre ++ '[' :: rest) c < pre.length := by
  by_cases hp : c ∈ pre
  · right
    have hi : List.indexOf c (pre ++ '[' :: rest) = List.indexOf c pre :=
      List.indexOf_append_of_mem hp
    have hlt : List.indexOf c pre < pre.length := List.indexOf_lt_length.mpr hp
    unfold find
    rw [hi, if_pos (by simp; omega)]
    exact hlt
  · left
    apply find_absent
    simp [hp, h, hc]

/-- Shape 2: a first `[` with no `]` after it. -/
theorem extract_after (x : String) (pre rest : List Char)
    (hx : x.data = pre ++ '[' :: rest) (h1 : '[' ∉ pre) (h2 : ']' ∉ rest)
    (hlen : x.data.length ≤ 2147483647) :
    extract_integer_in_brackets x = stoi rest := by
  have hl : pre.length + rest.length + 1 ≤ 2147483647 := by
    rw [hx] at hlen
    simp only [List.length_append, List.length_cons] at hlen
    omega
  have hf1 : find x.data '[' = pre.length := by
    rw [hx]
    exact find_first pre _ '[' h1
  have hsub : ∀ len : Nat, rest.length ≤ len →
      substr x.data (pre.length + 1) len = some rest := by
    intro len hle
    rw [hx]
    unfold substr
    rw [if_neg (by simp)]
    have : List.drop (pre.length + 1) (pre ++ '[' :: rest) = rest := by
      rw [show pre ++ '[' :: rest = (pre ++ ['[']) ++ rest by simp]
      exact List.drop_left' (by simp)
    rw [this, List.take_of_length_le hle]
  have hf2 := find_before pre rest ']' (by decide) h2
  rw [← hx] at hf2
  rw [extract_eq, hf1]
  have e1 : int_wrap ((pre.length : Nat) : Int) = pre.length := int_wrap_nat _ (by omega)
  have e2 : int_add (pre.length : Int) 1 = ((pre.length + 1 : Nat) : Int) := by
    unfold int_add
    rw [int_wrap_of_range _ (by omega) (by omega)]
    push_cast
    ring
  rw [e1, e2, to_size_t_nat _ (by omega)]
  rcases hf2 with h | h
  · rw [h, int_wrap_npos,
      hsub _ (len_when_reversed _ _ (le_refl _) (by omega) (by omega) _ (by omega)),
      Option.some_bind]
  · rw [int_wrap_nat _ (by omega),
      hsub _ (len_when_reversed _ _ (by omega) (by omega) (by omega) _ (by omega)),
      Option.some_bind]

/-- Shape 3: no `[`, and a first `]`. -/
theorem extract_before (x : String) (pre post : List Char)
    (hx : x.data = pre ++ ']' :: post) (h1 : '[' ∉ x.data) (h2 : ']' ∉ pre)
    (hlen : x.data.length ≤ 2147483647) :
    extract_integer_in_brackets x = stoi pre := by
  have hl : pre.length + post.length + 1 ≤ 2147483647 := by
    rw [hx] at hlen
    simp only [List.length_append, List.length_cons] at hlen
    omega
  have hf1 : find x.data '[' = npos := find_absent _ _ h1
  have hf2 : find x.data ']' = pre.length := by
    rw [hx]
    exact find_first pre _ ']' h2
  rw [extract_eq, hf1, hf2, int_wrap_npos, int_wrap_nat _ (by omega)]
  have e3 : to_size_t (int_add (-1) 1) = 0 := by
    decide
  have e4 : int_sub (int_sub (pre.length : Int) (-1)) 1 = (pre.length : Int) := by
    have a1 : int_sub (pre.length : Int) (-1) = pre.length + 1 := by
      unfold int_sub
      rw [int_wrap_of_range _ (by omega) (by omega)]
      ring
    rw [a1]
    unfold int_sub
    rw [int_wrap_of_range _ (by omega) (by omega)]
    ring
  rw [e3, e4, to_size_t_nat _ (by omega), hx]
  simp [substr]

/-- Shape 4: neither `[` nor `]`. -/
theorem extract_whole (x : String) (h1 : '[' ∉ x.data) (h2 : ']' ∉ x.data)
    (hlen : x.data.length ≤ 2147483647) :
    extract_integer_in_brackets x = stoi x.data := by
  rw [extract_eq, find_absent _ _ h1, find_absent _ _ h2, int_wrap_npos]
  have e3 : to_size_t (int_add (-1) 1) = 0 := by
    decide
  have e4 : to_size_t (int_sub (int_sub (-1) (-1)) 1) = 18446744073709551615 := by
    decide
  rw [e3, e4]
  simp only [substr, List.drop_zero, Nat.not_lt_zero, if_false, gt_iff_lt]
  rw [List.take_of_length_le (by omega), Option.some_bind]

theorem stoi_nil : stoi [] = none := by
  decide

theorem stoi_no_number (c : Char) (t : List Char) (h1 : isspace c = false) (h2 : c ≠ '-')
    (h3 : c ≠ '+') (h4 : c.isDigit = false) : stoi (c :: t) = none := by
  have hdrop : List.dropWhile isspace (c :: t) = c :: t := by
    simp [List.dropWhile_cons, h1]
  have hstrip : strip_sign (c :: t) = c :: t := by
    unfold strip_sign
    split
    · rename_i heq
      injection heq with ha hb
      exact absurd ha h2
    · rename_i heq
      injection heq with ha hb
      exact absurd ha h3
    · rfl
  have htake : List.takeWhile Char.isDigit (c :: t) = [] := by
    simp [List.takeWhile_cons, h4]
  simp only [stoi, hdrop, hstrip, htake, if_true]

theorem stoi_ignores_rest (l : List Char) (c : Char) (t : List Char) (hne : l ≠ [])
    (hd : ∀ d ∈ l, d.isDigit = true) (hc : c.isDigit = false) :
    stoi (l ++ c :: t) = stoi l := by
  match l, hne, hd with
  | a :: u, _, hd =>
    obtain ⟨h1, h2, h3, -, -⟩ := digit_not_special a (hd a (by simp))
    have hstrip : ∀ v, strip_sign (a :: v) = a :: v := by
      intro v
      unfold strip_sign
      split
      · rename_i heq
        injection heq with ha hb
        exact absurd ha h2
      · rename_i heq
        injection heq with ha hb
        exact absurd ha h3
      · rfl
    have hdrop : ∀ v, List.dropWhile isspace (a :: v) = a :: v := by
      intro v
      simp [List.dropWhile_cons, h1]
    have htake1 : List.takeWhile Char.isDigit (a :: u) = a :: u :=
      List.takeWhile_eq_self_iff.mpr hd
    have htake2 : List.takeWhile Char.isDigit (a :: (u ++ c :: t)) = a :: u := by
      have happ : List.takeWhile Char.isDigit ((a :: u) ++ c :: t)
          = (a :: u) ++ List.takeWhile Char.isDigit (c :: t) :=
        List.takeWhile_append_of_pos hd
      simpa [List.takeWhile_cons, hc] using happ
    simp only [stoi, List.cons_append, hdrop, hstrip, htake1, htake2, List.head?_cons]

/-! ## Claims on `extract_integer_in_brackets` -/

/-- Counterexample to C12 as stated: for the prefix `a` and `n = 2147483648` the
call fails, because the value is not an `int`. -/
theorem C12_counterexample :
    extract_integer_in_brackets ("a" ++ "[" ++ Nat.repr 2147483648 ++ "]") = none
    ∧ '[' ∉ "a".data ∧ ']' ∉ "a".data := by
  decide

/-- Claim C12, amended: for every `n` with `0 ≤ n ≤ 2147483647` (the values of an
`int`) and every prefix containing neither `[` nor `]`,
`extract_integer_in_brackets(prefix ++ "[" ++ decimal(n) ++ "]")` returns `n`, the
string being at most `2147483647` characters long; `"a[1]"` gives `1` and
`"ultimate_loss[2025]"` gives `2025`. -/
theorem C12_bracket_round_trip (pre : String) (n : Nat)
    (h1 : '[' ∉ pre.data) (h2 : ']' ∉ pre.data) (hn : n ≤ 2147483647)
    (hlen : (pre ++ "[" ++ Nat.repr n ++ "]").length ≤ 2147483647) :
    extract_integer_in_brackets (pre ++ "[" ++ Nat.repr n ++ "]") = some (n : Int)
    ∧ extract_integer_in_brackets "a[1]" = some 1
    ∧ extract_integer_in_brackets "ultimate_loss[2025]" = some 2025 := by
  refine ⟨?_, by decide, by decide⟩
  obtain ⟨-, hdig, -⟩ := toDigits_spec n
  have hx : (pre ++ "[" ++ Nat.repr n ++ "]").data
      = pre.data ++ '[' :: (Nat.toDigits 10 n ++ ']' :: []) := by
    simp [String.data_append, Nat.repr, List.asString]
  have h3 : ']' ∉ Nat.toDigits 10 n := by
    intro hmem
    exact (digit_not_special _ (hdig _ hmem)).2.2.2.2 rfl
  rw [extract_between _ pre.data (Nat.toDigits 10 n) [] hx h1 h2 h3 hlen, stoi_toDigits,
    if_pos hn]

/-- Witness for C12 (amended): the prefix `ultimate_loss` and `n = 2025`. -/
theorem C12_bracket_round_trip_witness :
    extract_integer_in_brackets ("ultimate_loss" ++ "[" ++ Nat.repr 2025 ++ "]")
        = some ((2025 : Nat) : Int)
    ∧ extract_integer_in_brackets "a[1]" = some 1
    ∧ extract_integer_in_brackets "ultimate_loss[2025]" = some 2025 :=
  C12_bracket_round_trip "ultimate_loss" 2025 (by decide) (by decide) (by decide) (by decide)

/-- Counterexample to C13 as stated: `"12]"` has no `[`, `"a[12"` has no `]`, and
in `"a[12abc]"` the digits are followed by non-digits, yet each call returns `12`. -/
theorem C13_counterexample :
    extract_integer_in_brackets "12]" = some 12
    ∧ extract_integer_in_brackets "a[12" = some 12
    ∧ extract_integer_in_brackets "a[12abc]" = some 12
    ∧ '[' ∉ "12]".data ∧ ']' ∉ "a[12".data := by
  decide

/-- Claim C13, amended: `extract_integer_in_brackets` applies `std::stoi` to the
text it extracts, which is the text strictly between the first `[` and the first
`]` when that `]` comes after the `[`, the text after the first `[` when no `]`
follows it, the text before the first `]` when there is no `[`, and the whole
string when there is neither.  It fails when that text is empty or begins with a
character that is neither white space, a sign nor a digit; what follows the
leading digits is ignored. -/
theorem C13_extracted_text (x : String) (hlen : x.length ≤ 2147483647) :
    (∀ pre mid post : List Char, x.data = pre ++ '[' :: (mid ++ ']' :: post) →
      '[' ∉ pre → ']' ∉ pre → ']' ∉ mid → extract_integer_in_brackets x = stoi mid)
    ∧ (∀ pre rest : List Char, x.data = pre ++ '[' :: rest → '[' ∉ pre → ']' ∉ rest →
      extract_integer_in_brackets x = stoi rest)
    ∧ (∀ pre post : List Char, x.data = pre ++ ']' :: post → '[' ∉ x.data → ']' ∉ pre →
      extract_integer_in_brackets x = stoi pre)
    ∧ ('[' ∉ x.data → ']' ∉ x.data → extract_integer_in_brackets x = stoi x.data)
    ∧ stoi [] = none
    ∧ (∀ (c : Char) (t : List Char), isspace c = false → c ≠ '-' → c ≠ '+' →
      c.isDigit = false → stoi (c :: t) = none)
    ∧ (∀ (l : List Char) (c : Char) (t : List Char), l ≠ [] → (∀ d ∈ l, d.isDigit = true) →
      c.isDigit = false → stoi (l ++ c :: t) = stoi l) :=
  ⟨fun pre mid post hx h1 h2 h3 => extract_between x pre mid post hx h1 h2 h3 hlen,
    fun pre rest hx h1 h2 => extract_after x pre rest hx h1 h2 hlen,
    fun pre post hx h1 h2 => extract_before x pre post hx h1 h2 hlen,
    fun h1 h2 => extract_whole x h1 h2 hlen,
    stoi_nil, stoi_no_number, stoi_ignores_rest⟩

/-- Witness for C13 (amended) on the string `a[x]`. -/
theorem C13_extracted_text_witness :
    "a[x]".length ≤ 2147483647
    ∧ (∀ pre mid post : List Char, "a[x]".data = pre ++ '[' :: (mid ++ ']' :: post) →
      '[' ∉ pre → ']' ∉ pre → ']' ∉ mid → extract_integer_in_brackets "a[x]" = stoi mid)
    ∧ (∀ pre rest : List Char, "a[x]".data = pre ++ '[' :: rest → '[' ∉ pre → ']' ∉ rest →
      extract_integer_in_brackets "a[x]" = stoi rest)
    ∧ (∀ pre post : List Char, "a[x]".data = pre ++ ']' :: post → '[' ∉ "a[x]".data →
      ']' ∉ pre → extract_integer_in_brackets "a[x]" = stoi pre)
    ∧ ('[' ∉ "a[x]".data → ']' ∉ "a[x]".data →
      extract_integer_in_brackets "a[x]" = stoi "a[x]".data)
    ∧ stoi [] = none
    ∧ (∀ (c : Char) (t : List Char), isspace c = false → c ≠ '-' → c ≠ '+' →
      c.isDigit = false → stoi (c :: t) = none)
    ∧ (∀ (l : List Char) (c : Char) (t : List Char), l ≠ [] → (∀ d ∈ l, d.isDigit = true) →
      c.isDigit = false → stoi (l ++ c :: t) = stoi l) :=
  ⟨by decide, C13_extracted_text "a[x]" (by decide)⟩

/-! ## Evaluation of `divide_columns` -/

theorem to_uword_nat (k : Nat) (h : k ≤ 2147483647) : to_uword (int_wrap (k : Int)) = k := by
  rw [int_wrap_nat k h]
  unfold to_uword
  rw [Int.emod_eq_of_lt (by omega) (by omega)]
  simp

theorem divide_loop (x : Mat) (y : Vec) (hwf : x.WellFormed) (hy : x.n_cols ≤ y.length)
    (k : Nat) (hk : k ≤ x.n_cols) :
    ∃ out,
      (List.range k).foldlM
        (fun out i => do
          let column ← x.col i
          let divisor ← Vec.elem y i
          Mat.set_col out i (column.map fun v => v / divisor))
        (Mat.create x.n_rows x.n_cols) = some out
      ∧ out.n_rows = x.n_rows ∧ out.n_cols = x.n_cols ∧ out.cols.length = x.n_cols
      ∧ (∀ c ∈ out.cols, c.length = x.n_rows)
      ∧ (∀ (j : Nat) (c : List ℚ) (v : ℚ), j < k → x.cols[j]? = some c → y[j]? = some v →
          out.cols[j]? = some (c.map fun q => q / v)) := by
  induction k with
  | zero =>
    refine ⟨Mat.create x.n_rows x.n_cols, by simp, rfl, rfl, by simp [Mat.create], ?_, ?_⟩
    · intro c hc
      simp only [Mat.create] at hc
      rw [List.eq_of_mem_replicate hc]
      simp
    · intro j c v hj
      omega
  | succ k ih =>
    obtain ⟨out, hout, h1, h2, h3, h4, h5⟩ := ih (by omega)
    have hkc : k < x.cols.length := by rw [hwf.1]; omega
    have hky : k < y.length := by omega
    have hcol : x.col k = some x.cols[k] := by
      simp only [Mat.col, if_pos (show k < x.n_cols by omega)]
      exact List.getElem?_eq_getElem hkc
    have hlen : x.cols[k].length = x.n_rows := hwf.2 _ (List.getElem_mem _)
    have hset : Mat.set_col out k (x.cols[k].map fun v => v / y[k])
        = some { out with cols := out.cols.set k (x.cols[k].map fun v => v / y[k]) } := by
      simp only [Mat.set_col]
      rw [if_pos ⟨by omega, by simp [h1, hlen]⟩]
    refine ⟨{ out with cols := out.cols.set k (x.cols[k].map fun v => v / y[k]) }, ?_, h1, h2,
      by simp [h3], ?_, ?_⟩
    · rw [List.range_succ, List.foldlM_append, hout]
      simp only [Option.bind_eq_bind, Option.some_bind, List.foldlM_cons, List.foldlM_nil, hcol,
        Vec.elem, List.getElem?_eq_getElem hky, hset]
      rfl
    · intro c hc
      rcases List.mem_or_eq_of_mem_set hc with h | h
      · exact h4 c h
      · rw [h]
        simp [hlen]
    · intro j c v hj hc hv
      by_cases hjk : j = k
      · subst hjk
        rw [List.getElem?_eq_getElem hkc] at hc
        rw [List.getElem?_eq_getElem hky] at hv
        simp only [Option.some.injEq] at hc hv
        rw [List.getElem?_set_self (by omega), hc, hv]
      · rw [List.getElem?_set_ne (fun h => hjk h.symm)]
        exact h5 j c v (by omega) hc hv

/-! ## Claims on `divide_columns` and `parallel_divide` -/

/-- Claim C14: for every `n`-by-`p` matrix `x` and every vector `y` of length `p`
with all entries non-zero (exact rational arithmetic), `divide_columns(x, y)` is
the `n`-by-`p` matrix whose entry `(i, j)` is `x[i][j] / y[j]` for all
`0 ≤ i < n` and `0 ≤ j < p`; the dimensions are those of an R matrix, at most
`2147483647`. -/
theorem C14_divide_columns (x : Mat) (y : Vec) (hwf : x.WellFormed)
    (hn : x.n_rows ≤ 2147483647) (hp : x.n_cols ≤ 2147483647)
    (hy : y.length = x.n_cols) (hnz : ∀ v ∈ y, v ≠ 0) :
    ∃ out, divide_columns x y = some out
      ∧ out.n_rows = x.n_rows ∧ out.n_cols = x.n_cols ∧ out.WellFormed
      ∧ (∀ i j : Nat, i < x.n_rows → j < x.n_cols →
          ∃ q v, x.entry i j = some q ∧ y[j]? = some v ∧ v ≠ 0
            ∧ out.entry i j = some (q / v)) := by
  obtain ⟨out, hout, h1, h2, h3, h4, h5⟩ :=
    divide_loop x y hwf (by omega) x.n_cols (le_refl _)
  refine ⟨out, ?_, h1, h2, ⟨by rw [h3, h2], by rw [h1]; exact h4⟩, ?_⟩
  · have hpn : (int_wrap (x.n_cols : Int)).toNat = x.n_cols := by
      rw [int_wrap_nat _ hp]
      simp
    simp only [divide_columns, to_uword_nat _ hn, to_uword_nat _ hp, hpn]
    exact hout
  · intro i j hi hj
    have hjc : j < x.cols.length := by rw [hwf.1]; exact hj
    have hjy : j < y.length := by omega
    have hic : i < x.cols[j].length := by
      rw [hwf.2 _ (List.getElem_mem _)]
      exact hi
    have hcol := h5 j x.cols[j] y[j] hj (List.getElem?_eq_getElem hjc)
      (List.getElem?_eq_getElem hjy)
    refine ⟨x.cols[j][i], y[j], ?_, List.getElem?_eq_getElem hjy,
      hnz _ (List.getElem_mem _), ?_⟩
    · simp [Mat.entry, hi, hj, List.getElem?_eq_getElem hjc, List.getElem?_eq_getElem hic]
    · simp [Mat.entry, h1, h2, hi, hj, hcol, List.getElem?_eq_getElem hic]

/-- Witness for C14 on the matrix of `divide_columns_test`. -/
theorem C14_divide_columns_witness :
    (Mat.of_rows [[1, 2, 3], [4, 5, 6]]).WellFormed
    ∧ ∃ out, divide_columns (Mat.of_rows [[1, 2, 3], [4, 5, 6]]) [1, 2, 3] = some out
      ∧ out.n_rows = (Mat.of_rows [[1, 2, 3], [4, 5, 6]]).n_rows
      ∧ out.n_cols = (Mat.of_rows [[1, 2, 3], [4, 5, 6]]).n_cols ∧ out.WellFormed
      ∧ (∀ i j : Nat, i < (Mat.of_rows [[1, 2, 3], [4, 5, 6]]).n_rows →
          j < (Mat.of_rows [[1, 2, 3], [4, 5, 6]]).n_cols →
          ∃ q v, (Mat.of_rows [[1, 2, 3], [4, 5, 6]]).entry i j = some q
            ∧ [(1 : ℚ), 2, 3][j]? = some v ∧ v ≠ 0 ∧ out.entry i j = some (q / v)) :=
  ⟨by decide,
    C14_divide_columns (Mat.of_rows [[1, 2, 3], [4, 5, 6]]) [1, 2, 3] (by decide) (by decide)
      (by decide) (by decide) (by decide)⟩

/-- Counterexample to C15 as stated: on the matrix `[[1,2,3],[4,5,6]]` of
`divide_columns_test` and the vector `[1,2,3]` the entry in the second row and
first column of the result is `4 / 1 = 4`, not `2`, so the result is not
`[[1,1,1],[2,5/2,2]]`. -/
theorem C15_counterexample :
    ∃ out, divide_columns (Mat.of_rows [[1, 2, 3], [4, 5, 6]]) [1, 2, 3] = some out
      ∧ out.entry 1 0 = some 4
      ∧ out ≠ Mat.of_rows [[1, 1, 1], [2, 5 / 2, 2]] := by
  refine ⟨Mat.of_rows [[1, 1, 1], [4, 5 / 2, 2]], ?_, ?_, ?_⟩
  · simp [divide_columns, Mat.of_rows, Mat.create, Mat.col, Mat.set_col,
      Vec.elem, int_wrap, to_uword, List.range_succ, List.foldlM, List.replicate]
    norm_num
  · simp [Mat.entry, Mat.of_rows, List.range_succ]
  · simp [Mat.of_rows, List.range_succ]

/-- Claim C15, amended: `divide_columns` applied to the 2-by-3 matrix
`[[1,2,3],[4,5,6]]` built in `divide_columns_test` and the vector `[1,2,3]` returns
`[[1,1,1],[4,5/2,2]]`, which is what `divide_columns_test` prints. -/
theorem C15_documented_example :
    divide_columns (Mat.of_rows [[1, 2, 3], [4, 5, 6]]) [1, 2, 3]
        = some (Mat.of_rows [[1, 1, 1], [4, 5 / 2, 2]])
    ∧ divide_columns_test = some (Mat.of_rows [[1, 1, 1], [4, 5 / 2, 2]]) := by
  constructor
  · simp [divide_columns, Mat.of_rows, Mat.create, Mat.col, Mat.set_col,
      Vec.elem, int_wrap, to_uword, List.range_succ, List.foldlM, List.replicate]
    norm_num
  · simp [divide_columns_test, divide_columns, Mat.of_rows, Mat.create, Mat.col, Mat.set_col,
      Vec.elem, int_wrap, to_uword, List.range_succ, List.foldlM, List.replicate]
    norm_num

/-- Claim C16: `parallel_divide` and `divide_columns` are behaviourally identical:
for every matrix `x` and vector `y`, `parallel_divide(x, y) = divide_columns(x, y)`,
failures included. -/
theorem C16_parallel_divide (x : Mat) (y : Vec) :
    parallel_divide x y = divide_columns x y := by
  unfold parallel_divide divide_columns
  rfl

/-! ## Further claims on `build_cur_year_df` and `update_loss_prem_at_least_one` -/

/-- Claim C18: for fixed `year`, `first_ay` and origin `w`, the `cur_d` computed
by `build_cur_year_df` is non-decreasing in `quarter`: of two rows (of one call or
of two calls with the same `year` and `first_ay`) with the same `w`, the one with
the smaller or equal `quarter` has the smaller or equal `cur_d`. -/
theorem C18_age_monotone (verbs1 verbs2 : Verbs) (df1 df2 olep1 olep2 : DataFrame)
    (year first_ay : Int) (params1 params2 : Params) (w1 q1 w2 q2 : NumericVector)
    (x1 x2 : ℚ)
    (hw1 : df1.numeric "w" = some w1) (hq1 : df1.numeric "quarter" = some q1)
    (hx1 : ((filter olep1
        [("lob", .str params1.lob), ("ay", .num year), ("dev_month", .num 12)]).numeric
          "cum_olep").bind as_double = some x1)
    (hw2 : df2.numeric "w" = some w2) (hq2 : df2.numeric "quarter" = some q2)
    (hx2 : ((filter olep2
        [("lob", .str params2.lob), ("ay", .num year), ("dev_month", .num 12)]).numeric
          "cum_olep").bind as_double = some x2) :
    ∃ r1 r2, build_cur_year_df verbs1 df1 olep1 year first_ay params1 = some r1
      ∧ build_cur_year_df verbs2 df2 olep2 year first_ay params2 = some r2
      ∧ (∀ (i j : Nat) (wv qa qb : ℚ), w1[i]? = some wv → w2[j]? = some wv →
          q1[i]? = some qa → q2[j]? = some qb → qa ≤ qb →
          ∃ ca cb, r1.cur_d[i]? = some ca ∧ r2.cur_d[j]? = some cb ∧ ca ≤ cb) := by
  obtain ⟨r1, hr1, -, -, -, hd1, -⟩ :=
    build_cur_year_df_eval verbs1 df1 olep1 year first_ay params1 w1 q1 x1 hw1 hq1 hx1
  obtain ⟨r2, hr2, -, -, -, hd2, -⟩ :=
    build_cur_year_df_eval verbs2 df2 olep2 year first_ay params2 w2 q2 x2 hw2 hq2 hx2
  refine ⟨r1, r2, hr1, hr2, ?_⟩
  intro i j wv qa qb hwi hwj hqi hqj hle
  refine ⟨12 * (((int_add (int_sub year first_ay) 1 : Int) : ℚ) - wv) + qa * 3,
    12 * (((int_add (int_sub year first_ay) 1 : Int) : ℚ) - wv) + qb * 3, ?_, ?_, ?_⟩
  · rw [hd1]
    exact cur_d_row _ w1 q1 i wv qa hwi hqi
  · rw [hd2]
    exact cur_d_row _ w2 q2 j wv qb hwj hqj
  · linarith

/-- Witness for C18: two rows of one record set with the same origin. -/
theorem C18_age_monotone_witness :
    same_origin_a.numeric "w" = some [1, 1]
    ∧ same_origin_a.numeric "quarter" = some [2, 4]
    ∧ ∀ verbs : Verbs, ∃ r1 r2,
      build_cur_year_df verbs same_origin_a premium_table_a 2021 2020 ⟨"A"⟩ = some r1
      ∧ build_cur_year_df verbs same_origin_a premium_table_a 2021 2020 ⟨"A"⟩ = some r2
      ∧ (∀ (i j : Nat) (wv qa qb : ℚ), [(1 : ℚ), 1][i]? = some wv →
          [(1 : ℚ), 1][j]? = some wv → [(2 : ℚ), 4][i]? = some qa →
          [(2 : ℚ), 4][j]? = some qb → qa ≤ qb →
          ∃ ca cb, r1.cur_d[i]? = some ca ∧ r2.cur_d[j]? = some cb ∧ ca ≤ cb) :=
  ⟨rfl, rfl, fun verbs =>
    C18_age_monotone verbs verbs same_origin_a same_origin_a premium_table_a premium_table_a
      2021 2020 ⟨"A"⟩ ⟨"A"⟩ [1, 1] [2, 4] [1, 1] [2, 4] 100 100 rfl rfl (by decide) rfl rfl
      (by decide)⟩

/-- Claim C19: in every row where `paid_dcce` was floored (it was `0`), `case_resv`
was not itself floored (it was not `0`) and `case_resv` holds exactly `1` when
line 91 is reached, `update_loss_prem_at_least_one` returns `case_resv` as `1`,
not `0`. -/
theorem C19_kept_at_one (df all_lines_olep : DataFrame) (year first_ay : Int)
    (params : Params) (pl cr pd co : NumericVector) (hwf : df.WellFormed)
    (hpl : df.numeric "paid_loss" = some pl) (hcr : df.numeric "case_resv" = some cr)
    (hpd : df.numeric "paid_dcce" = some pd) (hco : df.numeric "cum_olep" = some co) :
    ∃ run cr_out,
      update_loss_prem_at_least_one_run df all_lines_olep year first_ay params = some run
      ∧ update_loss_prem_at_least_one df all_lines_olep year first_ay params = some run.out
      ∧ run.out.numeric "case_resv" = some cr_out
      ∧ run.case_resv_at_line_91.length = cr.length
      ∧ cr_out.length = cr.length
      ∧ (∀ (i : Nat) (c : ℚ), pd[i]? = some (0 : ℚ) → cr[i]? = some c → c ≠ 0 →
          run.case_resv_at_line_91[i]? = some (1 : ℚ) →
          cr_out[i]? = some (1 : ℚ) ∧ cr_out[i]? ≠ some (0 : ℚ)) := by
  obtain ⟨run, hrun, -, -, -, -, -, -, -, h91, hcase⟩ :=
    update_loss_prem_run_eval df all_lines_olep year first_ay params pl cr pd co hpl hcr hpd hco
  have hl1 : pl.length = cr.length := by
    rw [numeric_length df hwf _ _ hpl, numeric_length df hwf _ _ hcr]
  have hl2 : pd.length = cr.length := by
    rw [numeric_length df hwf _ _ hpd, numeric_length df hwf _ _ hcr]
  have hsame : run.case_resv_at_line_91 = cr.map (fun x => if x = 0 then 1 else x) := by
    rw [h91, hl1, Nat.min_self]
    exact List.take_of_length_le (by simp)
  rw [take_of_same_length pl cr pd hl1 hl2] at hcase
  refine ⟨run, _, hrun, by simp [update_loss_prem_at_least_one, hrun], hcase,
    by rw [hsame]; simp, by simp, ?_⟩
  intro i c _ _ _ h1
  rw [hsame] at h1
  rw [h1]
  simp

/-- Witness for C19 on `paid_loss=[5,0]`, `case_resv=[1,2]`, `paid_dcce=[0,0]`,
`cum_olep=[1,1]`, whose first row has a floored `paid_dcce` next to a `case_resv`
of exactly `1`. -/
theorem C19_kept_at_one_witness :
    (⟨[("paid_loss", .numeric [5, 0]), ("case_resv", .numeric [1, 2]),
        ("paid_dcce", .numeric [0, 0]), ("cum_olep", .numeric [1, 1])]⟩ : DataFrame).WellFormed
    ∧ ∃ run cr_out,
      update_loss_prem_at_least_one_run
        ⟨[("paid_loss", .numeric [5, 0]), ("case_resv", .numeric [1, 2]),
          ("paid_dcce", .numeric [0, 0]), ("cum_olep", .numeric [1, 1])]⟩
        ⟨[]⟩ 2021 2020 ⟨"A"⟩ = some run
      ∧ update_loss_prem_at_least_one
        ⟨[("paid_loss", .numeric [5, 0]), ("case_resv", .numeric [1, 2]),
          ("paid_dcce", .numeric [0, 0]), ("cum_olep", .numeric [1, 1])]⟩
        ⟨[]⟩ 2021 2020 ⟨"A"⟩ = some run.out
      ∧ run.out.numeric "case_resv" = some cr_out
      ∧ run.case_resv_at_line_91.length = [(1 : ℚ), 2].length
      ∧ cr_out.length = [(1 : ℚ), 2].length
      ∧ (∀ (i : Nat) (c : ℚ), [(0 : ℚ), 0][i]? = some (0 : ℚ) → [(1 : ℚ), 2][i]? = some c →
          c ≠ 0 → run.case_resv_at_line_91[i]? = some (1 : ℚ) →
          cr_out[i]? = some (1 : ℚ) ∧ cr_out[i]? ≠ some (0 : ℚ)) :=
  ⟨by decide,
    C19_kept_at_one
      ⟨[("paid_loss", .numeric [5, 0]), ("case_resv", .numeric [1, 2]),
        ("paid_dcce", .numeric [0, 0]), ("cum_olep", .numeric [1, 1])]⟩
      ⟨[]⟩ 2021 2020 ⟨"A"⟩ [5, 0] [1, 2] [0, 0] [1, 1] (by decide) rfl rfl rfl rfl⟩

/-- Evaluation for C20: on the non-negative integers `paid_loss=[0,0]`,
`case_resv=[1,1]`, `paid_dcce=[0,5]`, `cum_olep=[1,1]` the call returns
`case_resv=[1,1]`: the first row, with `case_resv = 1` and both `paid_loss` and
`paid_dcce` `0`, is not negative, and the second, with `case_resv = 1` and only
`paid_loss` `0`, is not `0`. -/
theorem C20_failing_input :
    ∃ out,
      update_loss_prem_at_least_one
        ⟨[("paid_loss", .numeric [0, 0]), ("case_resv", .numeric [1, 1]),
          ("paid_dcce", .numeric [0, 5]), ("cum_olep", .numeric [1, 1])]⟩
        ⟨[]⟩ 2021 2020 ⟨"A"⟩ = some out
      ∧ out.numeric "case_resv" = some [1, 1]
      ∧ ¬ ((1 : ℚ) < 0) ∧ (1 : ℚ) ≠ 0 := by
  obtain ⟨out, hout, -, hc, -, -⟩ :=
    update_loss_prem_eval_frame
      ⟨[("paid_loss", .numeric [0, 0]), ("case_resv", .numeric [1, 1]),
        ("paid_dcce", .numeric [0, 5]), ("cum_olep", .numeric [1, 1])]⟩
      ⟨[]⟩ 2021 2020 ⟨"A"⟩ [0, 0] [1, 1] [0, 5] [1, 1] (by decide) rfl rfl rfl rfl
  refine ⟨out, hout, ?_, by norm_num, by norm_num⟩
  rw [hc]; simp

/-! ## The keyed view of Step 3 -/

theorem lookup_select (cols : List (String × Column)) (names : List String) (c : String) :
    DataFrame.lookup
        (names.filterMap fun n => (DataFrame.lookup cols n).map fun col => (n, col)) c
      = if c ∈ names then DataFrame.lookup cols c else none := by
  induction names with
  | nil => simp [DataFrame.lookup]
  | cons n rest ih =>
    cases hn : DataFrame.lookup cols n with
    | none =>
      by_cases hc : n = c
      · subst hc
        simp only [List.filterMap_cons, hn, Option.map_none', ih]
        simp [hn]
      · have hc2 : ¬ c = n := fun h => hc h.symm
        simp only [List.filterMap_cons, hn, Option.map_none', ih, List.mem_cons, hc2, false_or]
    | some col =>
      by_cases hc : n = c
      · subst hc
        simp [List.filterMap_cons, hn, DataFrame.lookup]
      · have hc2 : ¬ c = n := fun h => hc h.symm
        simp only [List.filterMap_cons, hn, Option.map_some', DataFrame.lookup, hc, if_false,
          ih, List.mem_cons, hc2, false_or]

theorem take_rows_cell (col : Column) (idx : List Nat) (h : ∀ i ∈ idx, i < col.length)
    (k : Nat) : (col.take_rows idx).cell k = (idx[k]?).bind fun i => col.cell i := by
  induction idx generalizing k with
  | nil => cases col <;> simp [Column.take_rows, Column.cell]
  | cons i rest ih =>
    have hi : i < col.length := h i (by simp)
    have hrest : ∀ j ∈ rest, j < col.length := fun j hj => h j (by simp [hj])
    have ih2 := ih hrest
    cases col with
    | numeric v =>
      simp only [Column.length] at hi
      simp only [Column.take_rows, Column.cell, List.get?_eq_getElem?] at ih2 ⊢
      rw [List.filterMap_cons, List.getElem?_eq_getElem hi]
      cases k with
      | zero => simp [List.getElem?_eq_getElem hi]
      | succ k => simpa using ih2 k
    | character v =>
      simp only [Column.length] at hi
      simp only [Column.take_rows, Column.cell, List.get?_eq_getElem?] at ih2 ⊢
      rw [List.filterMap_cons, List.getElem?_eq_getElem hi]
      cases k with
      | zero => simp [List.getElem?_eq_getElem hi]
      | succ k => simpa using ih2 k

theorem take_rows_length (col : Column) (idx : List Nat) (h : ∀ i ∈ idx, i < col.length) :
    (col.take_rows idx).length = idx.length := by
  induction idx with
  | nil => cases col <;> simp [Column.take_rows, Column.length]
  | cons i rest ih =>
    have hi : i < col.length := h i (by simp)
    have ih2 := ih (fun j hj => h j (by simp [hj]))
    cases col with
    | numeric v =>
      simp only [Column.length] at hi
      simp only [Column.take_rows, Column.length, List.get?_eq_getElem?] at ih2 ⊢
      rw [List.filterMap_cons, List.getElem?_eq_getElem hi]
      simp [ih2]
    | character v =>
      simp only [Column.length] at hi
      simp only [Column.take_rows, Column.length, List.get?_eq_getElem?] at ih2 ⊢
      rw [List.filterMap_cons, List.getElem?_eq_getElem hi]
      simp [ih2]

theorem mem_first_rows (df : DataFrame) (keys : List String) (i : Nat) :
    i ∈ first_rows df keys
      ↔ (i < df.nrow ∧ ∀ j, j < i → df.key keys j ≠ df.key keys i) := by
  simp [first_rows, List.mem_filter, List.all_eq_true]

theorem first_rows_increasing (df : DataFrame) (keys : List String) :
    (first_rows df keys).Pairwise (fun a b => a < b) :=
  List.Pairwise.filter _ (List.pairwise_lt_range _)

theorem first_rows_cover (df : DataFrame) (keys : List String) (i : Nat) (hi : i < df.nrow) :
    ∃ k ∈ first_rows df keys, k ≤ i ∧ df.key keys k = df.key keys i := by
  induction i using Nat.strong_induction_on with
  | _ i ih =>
    by_cases hfirst : ∀ j, j < i → df.key keys j ≠ df.key keys i
    · exact ⟨i, (mem_first_rows df keys i).mpr ⟨hi, hfirst⟩, le_refl _, rfl⟩
    · push_neg at hfirst
      obtain ⟨j, hj, hkey⟩ := hfirst
      obtain ⟨k, hk, hle, hkk⟩ := ih j hj (by omega)
      exact ⟨k, hk, by omega, hkk.trans hkey⟩

theorem first_rows_distinct (df : DataFrame) (keys : List String) (a b : Nat)
    (ha : a ∈ first_rows df keys) (hb : b ∈ first_rows df keys)
    (h : df.key keys a = df.key keys b) : a = b := by
  rw [mem_first_rows] at ha hb
  rcases Nat.lt_trichotomy a b with hlt | heq | hgt
  · exact absurd h (hb.2 a hlt)
  · exact heq
  · exact absurd h.symm (ha.2 b hgt)

theorem build_cur_year_df_select1 (verbs : Verbs) (df all_lines_olep : DataFrame)
    (year first_ay : Int) (params : Params) (r : CurYearFrame)
    (hr : build_cur_year_df verbs df all_lines_olep year first_ay params = some r) :
    r.select1 = verbs.select (verbs.left_join df df ["w", "d"])
      ["w", "d", "paid_loss", "rpt_loss", "paid_dcce", "rpt_counts", "closed_counts"] := by
  cases hw : df.numeric "w" with
  | none => simp [build_cur_year_df, hw] at hr
  | some w =>
    cases hq : df.numeric "quarter" with
    | none => simp [build_cur_year_df, hw, hq] at hr
    | some q =>
      cases hf : (filter all_lines_olep
          [("lob", .str params.lob), ("ay", .num year), ("dev_month", .num 12)]).numeric
            "cum_olep" with
      | none => simp [build_cur_year_df, hw, hq, hf] at hr
      | some v =>
        cases hx : as_double v with
        | none => simp [build_cur_year_df, hw, hq, hf, hx] at hr
        | some x =>
          simp [build_cur_year_df, hw, hq, hf, hx] at hr
          rw [← hr]

theorem select1_cell (df : DataFrame) (hwf : df.WellFormed) (keys names : List String)
    (c : String) (hc : c ∈ names) (k : Nat) :
    (spec_select (spec_left_join df df keys) names).cell c k
      = ((first_rows df keys)[k]?).bind fun i => df.cell c i := by
  simp only [DataFrame.cell, spec_select, spec_left_join]
  rw [lookup_select, if_pos hc, lookup_map_take_rows]
  cases hl : DataFrame.lookup df.cols c with
  | none => cases (first_rows df keys)[k]? <;> simp
  | some col =>
    simp only [Option.map_some']
    apply take_rows_cell
    intro i hi
    obtain ⟨p, hp, hpc⟩ := lookup_mem _ _ _ hl
    have := hwf p hp
    rw [hpc] at this
    rw [this]
    exact ((mem_first_rows df keys i).mp hi).1

theorem select1_nrow (df : DataFrame) (hwf : df.WellFormed) (keys names : List String)
    (c : String) (w : NumericVector) (hw : df.numeric c = some w) :
    (spec_select (spec_left_join df df keys) (c :: names)).nrow
      = (first_rows df keys).length := by
  have hl : DataFrame.lookup df.cols c = some (.numeric w) := by
    unfold DataFrame.numeric at hw
    split at hw
    · rename_i v hv
      simp only [Option.some.injEq] at hw
      rw [hv, hw]
    · simp at hw
  simp only [DataFrame.nrow, spec_select, spec_left_join, List.filterMap_cons,
    lookup_map_take_rows, hl, Option.map_some']
  apply take_rows_length
  intro i hi
  obtain ⟨p, hp, hpc⟩ := lookup_mem _ _ _ hl
  have := hwf p hp
  rw [hpc] at this
  rw [this]
  exact ((mem_first_rows df keys i).mp hi).1

/-- Claim C17: with the frame verbs read as the specification describes them,
Step 3 of `build_cur_year_df` (`select1`, the self-join of `df` on `(w, d)`) has
exactly one row per distinct `(w, d)` key of the input, in input order; row `k`
carries the `w`, `d`, `paid_loss`, `rpt_loss`, `paid_dcce`, `rpt_counts` and
`closed_counts` of the first input row with that key, and later rows with the
same key add no row. -/
theorem C17_select1_keyed (df all_lines_olep : DataFrame) (year first_ay : Int)
    (params : Params) (w q : NumericVector) (x : ℚ) (hwf : df.WellFormed)
    (hw : df.numeric "w" = some w) (hq : df.numeric "quarter" = some q)
    (hx : ((filter all_lines_olep
        [("lob", .str params.lob), ("ay", .num year), ("dev_month", .num 12)]).numeric
          "cum_olep").bind as_double = some x) :
    ∃ r, build_cur_year_df spec_verbs df all_lines_olep year first_ay params = some r
      ∧ r.select1.nrow = (first_rows df ["w", "d"]).length
      ∧ (∀ c ∈ ["w", "d", "paid_loss", "rpt_loss", "paid_dcce", "rpt_counts", "closed_counts"],
          ∀ k : Nat, r.select1.cell c k
            = ((first_rows df ["w", "d"])[k]?).bind fun i => df.cell c i)
      ∧ (∀ i : Nat, i ∈ first_rows df ["w", "d"]
          ↔ (i < df.nrow ∧ ∀ j, j < i → df.key ["w", "d"] j ≠ df.key ["w", "d"] i))
      ∧ (first_rows df ["w", "d"]).Pairwise (fun a b => a < b)
      ∧ (∀ i : Nat, i < df.nrow →
          ∃ k ∈ first_rows df ["w", "d"], k ≤ i ∧ df.key ["w", "d"] k = df.key ["w", "d"] i)
      ∧ (∀ a ∈ first_rows df ["w", "d"], ∀ b ∈ first_rows df ["w", "d"],
          df.key ["w", "d"] a = df.key ["w", "d"] b → a = b) := by
  obtain ⟨r, hr, -⟩ :=
    build_cur_year_df_eval spec_verbs df all_lines_olep year first_ay params w q x hw hq hx
  have hsel := build_cur_year_df_select1 spec_verbs df all_lines_olep year first_ay params r hr
  refine ⟨r, hr, ?_, ?_, mem_first_rows df _, first_rows_increasing df _,
    first_rows_cover df _, fun a ha b hb h => first_rows_distinct df _ a b ha hb h⟩
  · rw [hsel]
    exact select1_nrow df hwf _ _ "w" w hw
  · intro c hc k
    rw [hsel]
    exact select1_cell df hwf _ _ c hc k

/-- Witness for C17 on a record set whose first and third row share a key. -/
theorem C17_select1_keyed_witness :
    triangle_a.WellFormed
    ∧ ∃ r, build_cur_year_df spec_verbs triangle_a premium_table_a 2021 2020 ⟨"A"⟩ = some r
      ∧ r.select1.nrow = (first_rows triangle_a ["w", "d"]).length
      ∧ (∀ c ∈ ["w", "d", "paid_loss", "rpt_loss", "paid_dcce", "rpt_counts", "closed_counts"],
          ∀ k : Nat, r.select1.cell c k
            = ((first_rows triangle_a ["w", "d"])[k]?).bind fun i => triangle_a.cell c i)
      ∧ (∀ i : Nat, i ∈ first_rows triangle_a ["w", "d"]
          ↔ (i < triangle_a.nrow
            ∧ ∀ j, j < i → triangle_a.key ["w", "d"] j ≠ triangle_a.key ["w", "d"] i))
      ∧ (first_rows triangle_a ["w", "d"]).Pairwise (fun a b => a < b)
      ∧ (∀ i : Nat, i < triangle_a.nrow →
          ∃ k ∈ first_rows triangle_a ["w", "d"],
            k ≤ i ∧ triangle_a.key ["w", "d"] k = triangle_a.key ["w", "d"] i)
      ∧ (∀ a ∈ first_rows triangle_a ["w", "d"], ∀ b ∈ first_rows triangle_a ["w", "d"],
          triangle_a.key ["w", "d"] a = triangle_a.key ["w", "d"] b → a = b) :=
  ⟨by decide,
    C17_select1_keyed triangle_a premium_table_a 2021 2020 ⟨"A"⟩ [1, 2, 1] [4, 4, 4] 100
      (by decide) rfl rfl (by decide)⟩

end SPARTAN
